import Mathlib

/-!
Shallow embedding of the WhatsApp ECG credit-purchase bot:
the conversation state machine (conversationService), the session store
(dbService over the user_sessions table), and the backend API client
(ecgService) with its login / token-cache / retry / error-classification
logic.  Formatting of outbound message texts is out of scope of the spec,
so outbound messages are modelled as an inductive type whose constructors
stand for the MessageFormatter entry points, carrying the data arguments
(session ids, enquiry payloads) that the formatter embeds.
-/

namespace WhatAppBot

/-- Whether the first list is a prefix of the second (by BEq on Char). -/
def charsStartWith : List Char → List Char → Bool
  | [], _ => true
  | _ :: _, [] => false
  | a :: as, b :: bs => a == b && charsStartWith as bs

/-- Whether the first list occurs as a contiguous segment of the second. -/
def charsContainSeg (needle : List Char) : List Char → Bool
  | [] => needle.isEmpty
  | c :: rest => charsStartWith needle (c :: rest) || charsContainSeg needle rest

/-- Substring test mirroring the JavaScript String.prototype.includes. -/
def strIncludes (hay needle : String) : Bool :=
  charsContainSeg needle.toList hay.toList

/-- ASCII whitespace recognized by the trim model. -/
def jsWhitespace (c : Char) : Bool :=
  c == ' ' || c == '\t' || c == '\n' || c == '\r'

/-- JavaScript String.prototype.trim (ASCII whitespace model). -/
def jsTrim (s : String) : String :=
  String.mk (((s.data.dropWhile jsWhitespace).reverse.dropWhile jsWhitespace).reverse)

/-- Upper-case one ASCII character. -/
def jsUpperChar (c : Char) : Char :=
  if c.toNat ≥ 97 && c.toNat ≤ 122 then Char.ofNat (c.toNat - 32) else c

/-- JavaScript String.prototype.toUpperCase (ASCII model). -/
def jsUpper (s : String) : String :=
  String.mk (s.data.map jsUpperChar)

/-- Payload sub-object of a meter-info response (fields read by the pipeline). -/
structure MeterPayload where
  meterId : Option String
  meterNumber : Option String
  meterType : Option String
deriving DecidableEq, Repr

/-- Response of the OnlineInfo endpoint: the pipeline only inspects payLoad. -/
structure MeterInfoResponse where
  payLoad : Option MeterPayload
deriving DecidableEq, Repr

/-- Response of the OnlineEnquiry endpoint; result records are opaque here. -/
structure EnquiryResponse where
  data : List String
deriving DecidableEq, Repr

/-- Values stored in the session_data jsonb blob.  uuid k models the k-th
value produced by the uuidv4 generator (distinct counters give distinct ids). -/
inductive SVal where
  | s (v : String)
  | n (v : Nat)
  | uuid (k : Nat)
  | mi (m : MeterInfoResponse)
  | enq (e : EnquiryResponse)
deriving DecidableEq, Repr

/-- JavaScript truthiness of a stored value. -/
def SVal.truthy : SVal → Bool
  | .s v => v != ""
  | .n v => v != 0
  | _ => true

/-- The session_data jsonb object, as an association list. -/
abbrev SessionData := List (String × SVal)

/-- Read a key of a session_data object. -/
def dataGet (d : SessionData) (k : String) : Option SVal :=
  match d.find? (fun p => p.1 == k) with
  | some p => some p.2
  | none => none

/-- Write a key of a session_data object: JavaScript object assignment,
replacing the value at an existing key in place or appending a new key. -/
def dataSet : SessionData → String → SVal → SessionData
  | [], k, v => [(k, v)]
  | (k1, v1) :: t, k, v =>
    if k1 == k then (k, v) :: t else (k1, v1) :: dataSet t k v

/-- Key-wise union with right bias, mirroring the jsonb || merge used by
dbService.updateSession. -/
def mergeData (old patch : SessionData) : SessionData :=
  patch.foldl (fun acc p => dataSet acc p.1 p.2) old

/-- Key uniqueness of a session_data object (jsonb objects have unique keys). -/
def NodupKeys (d : SessionData) : Prop :=
  (d.map Prod.fst).Nodup

instance (d : SessionData) : Decidable (NodupKeys d) := by
  unfold NodupKeys
  infer_instance

/-- A row of the user_sessions table (the Session model). -/
structure Session where
  id : Nat
  phoneNumber : String
  currentState : String
  sessionData : SessionData
  updatedAt : Nat
deriving DecidableEq, Repr

/-- The user_sessions table plus the id generator and the updated_at clock. -/
structure Store where
  sessions : List Session
  nextId : Nat
  clock : Nat
deriving DecidableEq, Repr

/-- dbService.getSessionById: SELECT by primary key. -/
def getSessionById (store : Store) (sid : Nat) : Option Session :=
  store.sessions.find? (fun s => s.id == sid)

/-- All rows with the given phone number. -/
def phoneSessions (store : Store) (phone : String) : List Session :=
  store.sessions.filter (fun s => s.phoneNumber == phone)

/-- Fold step selecting the row with the greatest updated_at. -/
def pickLater (acc : Option Session) (s : Session) : Option Session :=
  match acc with
  | none => some s
  | some b => if s.updatedAt > b.updatedAt then some s else acc

/-- The row selected by ORDER BY updated_at DESC LIMIT 1 for a phone number. -/
def latestFor (store : Store) (phone : String) : Option Session :=
  (phoneSessions store phone).foldl pickLater none

/-- dbService.getOrCreateSession: return the active session for the phone
number, or INSERT a fresh one (state MENU, data empty). -/
def getOrCreateSession (store : Store) (phone : String) : Session × Store :=
  match latestFor store phone with
  | some s => (s, store)
  | none =>
    let s : Session :=
      { id := store.nextId, phoneNumber := phone, currentState := "MENU",
        sessionData := [], updatedAt := store.clock }
    (s, { sessions := store.sessions ++ [s], nextId := store.nextId + 1,
          clock := store.clock + 1 })

/-- dbService.updateSession: UPDATE state and jsonb-merge the data patch;
throws Session not found when the id matches no row. -/
def updateSession (store : Store) (sid : Nat) (state : String)
    (patch : SessionData) : Except String (Session × Store) :=
  match getSessionById store sid with
  | none => .error "Session not found"
  | some s =>
    let d2 := mergeData s.sessionData patch
    let s2 : Session :=
      { s with currentState := state, sessionData := d2, updatedAt := store.clock }
    .ok (s2, { store with
      sessions := store.sessions.map (fun t => if t.id == sid then s2 else t),
      clock := store.clock + 1 })

/-- dbService.resetSession: state to MENU, data to the empty object;
returns none (instead of failing) when the row is gone. -/
def resetSession (store : Store) (sid : Nat) : Option Session × Store :=
  match getSessionById store sid with
  | none => (none, store)
  | some s =>
    let s2 : Session :=
      { s with currentState := "MENU", sessionData := [], updatedAt := store.clock }
    (some s2, { store with
      sessions := store.sessions.map (fun t => if t.id == sid then s2 else t),
      clock := store.clock + 1 })

/-- dbService.deleteSession: DELETE by id. -/
def deleteSession (store : Store) (sid : Nat) : Store :=
  { store with sessions := store.sessions.filter (fun s => s.id != sid) }

/-- Store sanity: ids are unique and below the id generator. -/
def WF (store : Store) : Prop :=
  (∀ s ∈ store.sessions, s.id < store.nextId) ∧
  (store.sessions.map Session.id).Nodup

/-- Outbound messages, one constructor per MessageFormatter entry point that
the engine uses; arguments carry the data the template embeds (the session id
whose web-access link the menu shows, the enquiry payload, the prompt field). -/
inductive Msg where
  | menu (sessionId : Option Nat)
  | cancellationWithMenu (sessionId : Option Nat)
  | cancellation
  | err (text : String)
  | enquiryMsg (v : SVal)
  | meterInfoPrompt (label : String) (isOptional : Bool)
  | chargeConfirmation (meterType : String)
  | success (text : String)
  | processing (action : String)
  | timeoutError
  | connectionError
  | chargeStatusStub
deriving DecidableEq, Repr

/-- Engine-side world: the session store plus the uuidv4 generator counter. -/
structure World where
  store : Store
  uuidCounter : Nat
deriving DecidableEq, Repr

/-- Arguments of a fire-and-forget processEnquiryAsync launch. -/
structure Launch where
  phoneNumber : String
  sessionId : Nat
  ty : String
deriving DecidableEq, Repr

/-- Result of one webhook message turn: the immediate reply, the resulting
world, and the pipeline launch (if any) that was started without awaiting. -/
structure Outcome where
  reply : Msg
  world : World
  launched : Option Launch
deriving DecidableEq, Repr

/-- Handler result; an error models a thrown exception reaching
processMessage's top-level catch, carrying the world at the throw point. -/
abbrev HResult := Except (String × World) Outcome

def STATES_MENU : String := "MENU"

def STATES_PREPAID_METER_INFO : String := "PREPAID_METER_INFO"

def STATES_POSTPAID_METER_INFO : String := "POSTPAID_METER_INFO"

def STATES_PREPAID_ENQUIRY : String := "PREPAID_ENQUIRY"

def STATES_POSTPAID_ENQUIRY : String := "POSTPAID_ENQUIRY"

def STATES_CONFIRM_CHARGE : String := "CONFIRM_CHARGE"

/-- One entry of METER_INFO_FIELDS. -/
structure MeterField where
  key : String
  label : String
  required : Bool
deriving DecidableEq, Repr

/-- The fixed field-collection order of conversationService. -/
def METER_INFO_FIELDS : List MeterField :=
  [ { key := "phoneNumber", label := "Phone Number", required := true },
    { key := "meterNumber", label := "Meter Number", required := true },
    { key := "accountNumber", label := "Account Number", required := false } ]

/-- The cancel-keyword set checked by the engine. -/
def cancelKeywords : List String :=
  ["CANCEL", "STOP", "END", "QUIT", "EXIT", "ABORT"]

def fieldAt (i : Nat) : Option MeterField := METER_INFO_FIELDS.get? i

/-- conversationService cancel path shared by the handlers: delete the current
session, get-or-create one for the phone, reply with the cancellation menu. -/
def cancelPath (w : World) (sid : Nat) (phone : String) : Outcome :=
  let st1 := deleteSession w.store sid
  let (ns, st2) := getOrCreateSession st1 phone
  { reply := Msg.cancellationWithMenu (some ns.id),
    world := { w with store := st2 }, launched := none }

/-- conversationService.handleMenu. -/
def handleMenu (w : World) (session : Session) (message : String) : HResult :=
  let choice := jsTrim message
  if choice == "1" then
    match updateSession w.store session.id STATES_PREPAID_METER_INFO
        [("meterType", SVal.s "Prepaid"), ("currentFieldIndex", SVal.n 0)] with
    | .error e => .error (e, w)
    | .ok (_, st) =>
      .ok { reply := Msg.meterInfoPrompt "Phone Number" false,
            world := { w with store := st }, launched := none }
  else if choice == "2" then
    match updateSession w.store session.id STATES_POSTPAID_METER_INFO
        [("meterType", SVal.s "Postpaid"), ("currentFieldIndex", SVal.n 0)] with
    | .error e => .error (e, w)
    | .ok (_, st) =>
      .ok { reply := Msg.meterInfoPrompt "Phone Number" false,
            world := { w with store := st }, launched := none }
  else if choice == "3" then
    .ok { reply := Msg.chargeStatusStub, world := w, launched := none }
  else if choice == "4" then
    .ok { reply := Msg.menu (some session.id), world := w, launched := none }
  else
    .ok { reply := Msg.menu (some session.id), world := w, launched := none }

/-- conversationService.handleMeterInfoCollection.  ty is the PREPAID or
POSTPAID tag passed by the dispatcher. -/
def handleMeterInfoCollection (w : World) (session : Session) (message : String)
    (ty : String) : HResult :=
  let upperMessage := jsUpper (jsTrim message)
  if cancelKeywords.contains upperMessage then
    .ok (cancelPath w session.id session.phoneNumber)
  else
    let sessionData := session.sessionData
    let idx0 :=
      match dataGet sessionData "currentFieldIndex" with
      | some (SVal.n k) => k
      | _ => 0
    match fieldAt idx0 with
    | none => .error ("TypeError: field index out of range", w)
    | some field =>
      let step :=
        if upperMessage == "SKIP" && !field.required then
          (sessionData, idx0 + 1)
        else
          (dataSet sessionData field.key (SVal.s (jsTrim message)), idx0 + 1)
      let data1 := step.1
      let idx1 := step.2
      if idx1 ≥ METER_INFO_FIELDS.length then
        let data2 := dataSet data1 "currentFieldIndex" (SVal.n idx1)
        let data3 := dataSet data2 "asyncRequestId" (SVal.uuid w.uuidCounter)
        let w1 : World := { w with uuidCounter := w.uuidCounter + 1 }
        match updateSession w1.store session.id
            (if ty == "PREPAID" then STATES_PREPAID_ENQUIRY else STATES_POSTPAID_ENQUIRY)
            data3 with
        | .error e => .error (e, w1)
        | .ok (_, st) =>
          .ok { reply := Msg.processing "Processing your request",
                world := { w1 with store := st },
                launched := some { phoneNumber := session.phoneNumber,
                                   sessionId := session.id, ty := ty } }
      else
        let data2 := dataSet data1 "currentFieldIndex" (SVal.n idx1)
        match fieldAt idx1 with
        | none => .error ("TypeError: field index out of range", w)
        | some nextField =>
          match updateSession w.store session.id
              (if ty == "PREPAID" then STATES_PREPAID_METER_INFO else STATES_POSTPAID_METER_INFO)
              data2 with
          | .error e => .error (e, w)
          | .ok (_, st) =>
            .ok { reply := Msg.meterInfoPrompt nextField.label (!nextField.required),
                  world := { w with store := st }, launched := none }

/-- conversationService.handleEnquiryProcessing: reload by id, return the
stored enquiry result once the pipeline advanced the session to
CONFIRM_CHARGE, else a still-processing notice; no session write. -/
def handleEnquiryProcessing (w : World) (session : Session) (message : String) :
    HResult :=
  let upperMessage := jsUpper (jsTrim message)
  if cancelKeywords.contains upperMessage then
    .ok (cancelPath w session.id session.phoneNumber)
  else
    let check : Option Msg :=
      match getSessionById w.store session.id with
      | some cur =>
        if cur.currentState == STATES_CONFIRM_CHARGE then
          match dataGet cur.sessionData "enquiryResponse" with
          | some v => if v.truthy then some (Msg.enquiryMsg v) else none
          | none => none
        else none
      | none => none
    match check with
    | some m => .ok { reply := m, world := w, launched := none }
    | none =>
      .ok { reply := Msg.processing "Your request is still being processed",
            world := w, launched := none }

/-- conversationService.handleChargeConfirmation. -/
def handleChargeConfirmation (w : World) (session : Session) (message : String) :
    HResult :=
  let upperMessage := jsUpper (jsTrim message)
  if cancelKeywords.contains upperMessage then
    .ok (cancelPath w session.id session.phoneNumber)
  else if upperMessage == "YES" || upperMessage == "Y" || upperMessage == "CONFIRM" then
    let r := resetSession w.store session.id
    .ok { reply := Msg.success "Your charge request has been received. The charge endpoint will be implemented soon.",
          world := { w with store := r.2 }, launched := none }
  else if upperMessage == "NO" || upperMessage == "N" then
    let r := resetSession w.store session.id
    .ok { reply := Msg.cancellation, world := { w with store := r.2 }, launched := none }
  else
    let mt :=
      match dataGet session.sessionData "meterType" with
      | some (SVal.s m) => if m != "" then m else ""
      | _ => ""
    .ok { reply := Msg.chargeConfirmation mt, world := w, launched := none }

/-- conversationService.processMessage.  raceDelete injects a concurrent
cancellation completing at the suspension point right after the session load
(the awaits make every db call a scheduling point, spec section 5). -/
def processMessage (w : World) (phone message : String) (raceDelete : Bool) :
    Outcome :=
  let p := getOrCreateSession w.store phone
  let session := p.1
  let st1 := if raceDelete then deleteSession p.2 session.id else p.2
  let w1 : World := { w with store := st1 }
  let upperMessage := jsUpper (jsTrim message)
  let res : HResult :=
    if cancelKeywords.contains upperMessage then
      .ok (cancelPath w1 session.id phone)
    else if upperMessage == "MENU" || upperMessage == "RESET" then
      match resetSession w1.store session.id with
      | (some rs, st2) =>
        .ok { reply := Msg.menu (some rs.id), world := { w1 with store := st2 },
              launched := none }
      | (none, st2) =>
        let q := getOrCreateSession st2 phone
        .ok { reply := Msg.menu (some q.1.id), world := { w1 with store := q.2 },
              launched := none }
    else if session.currentState == STATES_MENU then
      handleMenu w1 session message
    else if session.currentState == STATES_PREPAID_METER_INFO then
      handleMeterInfoCollection w1 session message "PREPAID"
    else if session.currentState == STATES_POSTPAID_METER_INFO then
      handleMeterInfoCollection w1 session message "POSTPAID"
    else if session.currentState == STATES_PREPAID_ENQUIRY
        || session.currentState == STATES_POSTPAID_ENQUIRY then
      handleEnquiryProcessing w1 session message
    else if session.currentState == STATES_CONFIRM_CHARGE then
      handleChargeConfirmation w1 session message
    else
      match resetSession w1.store session.id with
      | (some rs, st2) =>
        .ok { reply := Msg.menu (some rs.id), world := { w1 with store := st2 },
              launched := none }
      | (none, st2) =>
        let q := getOrCreateSession st2 phone
        .ok { reply := Msg.menu (some q.1.id), world := { w1 with store := q.2 },
              launched := none }
  match res with
  | .ok o => o
  | .error (emsg, we) =>
    if strIncludes emsg "DATABASE_URL" || strIncludes emsg "BACKEND_BASE_URL" then
      { reply := Msg.err "Service is temporarily unavailable. Please contact support or try again later.",
        world := we, launched := none }
    else
      { reply := Msg.err "An unexpected error occurred. Please try again.",
        world := we, launched := none }

/-- A JavaScript Error as the ecgService code inspects it: message, the
transport code, the status of an attached HTTP response (responseStatus none
models a missing error.response), and the type / statusCode tags the service
itself attaches. -/
structure JSError where
  message : String
  code : Option String
  responseStatus : Option Nat
  etype : Option String
  statusCode : Option Nat
deriving DecidableEq, Repr

/-- A plain new Error(message) with no extra properties. -/
def plainErr (m : String) : JSError :=
  { message := m, code := none, responseStatus := none, etype := none,
    statusCode := none }

/-- Observable actions of the detached enquiry pipeline: outbound sends and
the session writes that actually hit the store. -/
inductive PAct where
  | send (phone : String) (m : Msg)
  | resetAct (sid : Nat)
  | updateAct (sid : Nat) (state : String)
deriving DecidableEq, Repr

/-- Environment of one pipeline run: the outcomes of the two backend calls. -/
structure PipelineEnv where
  meterInfo : Except JSError MeterInfoResponse
  enquiryRes : Except JSError EnquiryResponse
deriving Repr

/-- Concurrent-cancel schedule: before the pipeline's n-th suspension point a
cancel command may delete the session (spec section 5 scheduling model). -/
def delStep (sched : Nat → Bool) (sid : Nat) (store : Store) (n : Nat) :
    Store × Nat :=
  (if sched n then deleteSession store sid else store, n + 1)

/-- The check-then-reset sequence of the pipeline's failure paths:
getSessionById, and only if the session is still there, resetSession. -/
def guardedReset (sched : Nat → Bool) (sid : Nat) (store : Store) (n : Nat) :
    Store × Nat × List PAct :=
  let q1 := delStep sched sid store n
  match getSessionById q1.1 sid with
  | some _ =>
    let q2 := delStep sched sid q1.1 q1.2
    match resetSession q2.1 sid with
    | (some _, st3) => (st3, q2.2, [PAct.resetAct sid])
    | (none, st3) => (st3, q2.2, [])
  | none => (q1.1, q1.2, [])

/-- User-facing notice for a failed meter-info call, chosen by error type. -/
def errNoticeMeter (e : JSError) : Msg :=
  if e.etype == some "timeout" then Msg.timeoutError
  else if e.etype == some "connection" then Msg.connectionError
  else Msg.err "Failed to retrieve meter information. Please check your details and try again."

/-- User-facing notice for a failed enquiry call, chosen by error type. -/
def errNoticeEnquiry (e : JSError) : Msg :=
  if e.etype == some "timeout" then Msg.timeoutError
  else if e.etype == some "connection" then Msg.connectionError
  else Msg.err "Failed to retrieve account enquiry. Please try again."

/-- conversationService.processEnquiryAsync, the detached pipeline, with a
concurrent-cancel schedule injected at its suspension points.  Returns the
final store and the trace of sends and store writes. -/
def processEnquiryAsync (env : PipelineEnv) (sched : Nat → Bool)
    (phone : String) (sid : Nat) (ty : String) (store0 : Store) :
    Store × List PAct :=
  let q1 := delStep sched sid store0 0
  match getSessionById q1.1 sid with
  | none => (q1.1, [PAct.send phone (Msg.err "Session not found")])
  | some session =>
    let sessionData := session.sessionData
    let a1 := PAct.send phone (Msg.processing "Retrieving meter information")
    let q2 := delStep sched sid q1.1 q1.2
    let q3 := delStep sched sid q2.1 q2.2
    match env.meterInfo with
    | .error e =>
      let r := guardedReset sched sid q3.1 q3.2
      (r.1, [a1] ++ r.2.2 ++ [PAct.send phone (errNoticeMeter e)])
    | .ok mir =>
      match mir.payLoad with
      | none =>
        let r := guardedReset sched sid q3.1 q3.2
        (r.1, [a1] ++ r.2.2 ++
          [PAct.send phone (Msg.err "Failed to retrieve meter information. Please check your details and try again.")])
      | some _ =>
        let data1 := dataSet sessionData "meterInfo" (SVal.mi mir)
        let a2 := PAct.send phone (Msg.processing "Processing account enquiry")
        let q4 := delStep sched sid q3.1 q3.2
        let q5 := delStep sched sid q4.1 q4.2
        match env.enquiryRes with
        | .error e =>
          let r := guardedReset sched sid q5.1 q5.2
          (r.1, [a1, a2] ++ r.2.2 ++ [PAct.send phone (errNoticeEnquiry e)])
        | .ok er =>
          if er.data.isEmpty then
            let r := guardedReset sched sid q5.1 q5.2
            (r.1, [a1, a2] ++ r.2.2 ++
              [PAct.send phone (Msg.err "Failed to retrieve account enquiry. Please try again.")])
          else
            let data2 := dataSet data1 "enquiryResponse" (SVal.enq er)
            let q6 := delStep sched sid q5.1 q5.2
            match updateSession q6.1 sid STATES_CONFIRM_CHARGE data2 with
            | .ok (_, st7) =>
              (st7, [a1, a2, PAct.updateAct sid STATES_CONFIRM_CHARGE,
                     PAct.send phone (Msg.enquiryMsg (SVal.enq er))])
            | .error _ =>
              let q7 := delStep sched sid q6.1 q6.2
              match getSessionById q7.1 sid with
              | some _ =>
                let q8 := delStep sched sid q7.1 q7.2
                let rr := resetSession q8.1 sid
                let ra :=
                  match rr.1 with
                  | some _ => [PAct.resetAct sid]
                  | none => []
                (rr.2, [a1, a2] ++ ra ++
                  [PAct.send phone (Msg.err "An error occurred while processing your request. Please try again.")])
              | none => (q7.1, [a1, a2])

/-- Whether a pipeline action is a store write. -/
def PAct.isWrite : PAct → Bool
  | .send _ _ => false
  | .resetAct _ => true
  | .updateAct _ _ => true

/-- ecgService process-lifetime state: the cached bearer token. -/
structure ECGState where
  authToken : Option String
deriving DecidableEq, Repr

/-- ecgService.isAuthenticated. -/
def isAuthenticated (st : ECGState) : Bool :=
  st.authToken.isSome

/-- JavaScript truthiness of an optional string. -/
def optTruthy : Option String → Bool
  | none => false
  | some s => s != ""

/-- Body of the authentication response (statusCode, message, token). -/
structure LoginData where
  statusCode : Option Nat
  message : Option String
  token : Option String
deriving DecidableEq, Repr

/-- A resolved HTTP response of the authentication endpoint. -/
structure LoginHttpResponse where
  status : Nat
  data : Option LoginData
deriving DecidableEq, Repr

/-- Environment of one login() call: configuration presence and the remote
outcome (a resolved response, or a thrown request error). -/
structure LoginEnv where
  baseUrlSet : Bool
  credsSet : Bool
  outcome : Except JSError LoginHttpResponse
deriving Repr

/-- ecgService.login: caches the token on success; on the error paths inside
the try/catch clears the cached token; configuration errors are thrown before
the try and leave the cache untouched. -/
def login (env : LoginEnv) (st : ECGState) : Except JSError String × ECGState :=
  if !env.baseUrlSet then
    (.error (plainErr "BACKEND_BASE_URL environment variable is not set"), st)
  else if !env.credsSet then
    (.error (plainErr "ECG_API_PHONE_NUMBER and ECG_API_PASSWORD environment variables are required"), st)
  else
    match env.outcome with
    | .ok resp =>
      match resp.data with
      | some d =>
        if resp.status == 200 then
          if d.statusCode == some 200 && optTruthy d.token then
            (.ok (d.token.getD ""), { authToken := d.token })
          else
            (.error (plainErr (d.message.getD "Login failed - no token received")),
             { authToken := none })
        else
          (.error (plainErr "Login failed - unexpected response"), { authToken := none })
      | none =>
        (.error (plainErr "Login failed - unexpected response"), { authToken := none })
    | .error e =>
      match e.responseStatus with
      | some s =>
        (.error { message := "Login failed: " ++ toString s, code := none,
                  responseStatus := none, etype := some "auth", statusCode := some s },
         { authToken := none })
      | none => (.error e, { authToken := none })

/-- Environment of an authenticated call: the LoginEnv seen by the k-th
login() call of this run, and the outcome of the k-th executed request given
the bearer token attached to it. -/
structure AuthEnv (α : Type) where
  loginEnvs : Nat → LoginEnv
  request : Nat → String → Except JSError α

/-- Run state of an authenticated call: cached token plus call counters. -/
structure RunState where
  ecg : ECGState
  loginCount : Nat
  reqCount : Nat
deriving DecidableEq, Repr

/-- One login() call, counted. -/
def doLogin (env : AuthEnv α) (st : RunState) :
    Except JSError String × RunState :=
  let r := login (env.loginEnvs st.loginCount) st.ecg
  (r.1, { ecg := r.2, loginCount := st.loginCount + 1, reqCount := st.reqCount })

/-- ecgService._ensureAuth: log in only when no token is cached. -/
def ensureAuth (env : AuthEnv α) (st : RunState) :
    Except JSError String × RunState :=
  match st.ecg.authToken with
  | some t => (.ok t, st)
  | none => doLogin env st

/-- One execution of the wrapped request with a bearer token, counted. -/
def doRequest (env : AuthEnv α) (st : RunState) (tok : String) :
    Except JSError α × RunState :=
  (env.request st.reqCount tok, { st with reqCount := st.reqCount + 1 })

/-- ecgService._makeAuthenticatedRequest with its single 401 retry unrolled:
on a 401 first response, clear the token, log in again, and retry once; the
retry propagates any error (including a second 401). -/
def makeAuthenticatedRequest (env : AuthEnv α) (st : RunState) :
    Except JSError α × RunState :=
  match ensureAuth env st with
  | (.error e, st1) => (.error e, st1)
  | (.ok tok, st1) =>
    match doRequest env st1 tok with
    | (.ok a, st2) => (.ok a, st2)
    | (.error e, st2) =>
      if e.responseStatus == some 401 then
        let st3 : RunState := { st2 with ecg := { authToken := none } }
        match doLogin env st3 with
        | (.error le, st4) => (.error le, st4)
        | (.ok _, st4) =>
          match ensureAuth env st4 with
          | (.error e2, st5) => (.error e2, st5)
          | (.ok tok2, st5) =>
            match doRequest env st5 tok2 with
            | (.ok a, st6) => (.ok a, st6)
            | (.error e2, st6) => (.error e2, st6)
      else (.error e, st2)

/-- ecgService._handleError, the shared error classifier, in source order:
timeout, known connection codes, no response, HTTP response status, already
typed, generic. -/
def handleError (e : JSError) : JSError :=
  if e.code == some "ECONNABORTED" || strIncludes e.message "timeout" then
    { message := "Request timeout - service took too long to respond",
      code := none, responseStatus := none, etype := some "timeout", statusCode := none }
  else if e.code == some "ECONNREFUSED" || e.code == some "ENOTFOUND"
      || e.code == some "ETIMEDOUT" then
    { message := "Unable to connect to service", code := none,
      responseStatus := none, etype := some "connection", statusCode := none }
  else if e.responseStatus == none then
    { message := "Network error - unable to reach service", code := none,
      responseStatus := none, etype := some "connection", statusCode := none }
  else if e.responseStatus.isSome then
    { message := "API error: " ++ toString (e.responseStatus.getD 0), code := none,
      responseStatus := none, etype := some "api", statusCode := e.responseStatus }
  else if e.etype.isSome then e
  else
    { message := "An unexpected error occurred", code := none,
      responseStatus := none, etype := some "api", statusCode := none }

/-- ecgService.formatPhoneNumber: the empty string stays empty, otherwise
every character that is neither a digit nor a plus sign is removed. -/
def formatPhoneNumber (s : String) : String :=
  if s == "" then "" else String.mk (s.data.filter (fun c => c.isDigit || c == '+'))

/-- Parameters of getMeterInfo as destructured from the caller. -/
structure MeterInfoParams where
  phoneNumber : Option String
  meterNumber : Option String
  accountNumber : Option String
  meterType : Option String
  machineSignature : Option String
deriving DecidableEq, Repr

/-- The JSON model getMeterInfo posts to the OnlineInfo endpoint. -/
structure MeterInfoModel where
  phoneNumber : String
  meterNumber : String
  accountNumber : String
  meterType : String
deriving DecidableEq, Repr

/-- The request-body construction of getMeterInfo (source lines 219-224). -/
def meterInfoRequestBody (p : MeterInfoParams) : MeterInfoModel :=
  { phoneNumber :=
      match p.phoneNumber with
      | some s => if s != "" then formatPhoneNumber s else ""
      | none => ""
    meterNumber := p.meterNumber.getD ""
    accountNumber := p.accountNumber.getD ""
    meterType := p.meterType.getD "" }

/-- A resolved HTTP response carrying a typed body. -/
structure HttpResponse (α : Type) where
  status : Nat
  data : Option α
deriving DecidableEq, Repr

/-- The error thrown by the endpoints for a resolved response that is not a
200 with a body (a new Error with type api and a statusCode, but no attached
response object). -/
def apiFail (status : Nat) (m : String) : JSError :=
  { message := m, code := none, responseStatus := none, etype := some "api",
    statusCode := some status }

/-- ecgService.getMeterInfo: build the body, run the authenticated request,
and push every failure through the shared classifier handleError.  The built
request body is returned alongside for inspection. -/
def getMeterInfo (env : AuthEnv (HttpResponse MeterInfoResponse))
    (st : RunState) (p : MeterInfoParams) :
    (Except JSError MeterInfoResponse × RunState) × MeterInfoModel :=
  let model := meterInfoRequestBody p
  let r := makeAuthenticatedRequest env st
  match r with
  | (.ok resp, st1) =>
    match resp.data with
    | some d =>
      if resp.status == 200 then ((.ok d, st1), model)
      else
        ((.error (handleError (apiFail resp.status "Failed to retrieve meter information")), st1), model)
    | none =>
      ((.error (handleError (apiFail resp.status "Failed to retrieve meter information")), st1), model)
  | (.error e, st1) => ((.error (handleError e), st1), model)

/-- Parameters of enquiry as destructured from the caller. -/
structure EnquiryParams where
  asyncRequestId : Option String
  referenceId : Option String
  meterSerial : Option String
  mobileNumber : Option String
  meterType : Option String
  machineSignature : Option String
deriving DecidableEq, Repr

/-- ecgService.enquiry: acquire a machine signature when none was supplied
(failures are swallowed), run the authenticated request, and push every
failure through the shared classifier handleError.  sigResult is the outcome
of the signatureService round trip. -/
def enquiry (env : AuthEnv (HttpResponse EnquiryResponse)) (st : RunState)
    (p : EnquiryParams) (sigResult : Except JSError String) :
    Except JSError EnquiryResponse × RunState :=
  let _signature : Option String :=
    if optTruthy p.machineSignature then p.machineSignature
    else
      match sigResult with
      | .ok s => some s
      | .error _ => p.machineSignature
  let r := makeAuthenticatedRequest env st
  match r with
  | (.ok resp, st1) =>
    match resp.data with
    | some d =>
      if resp.status == 200 then (.ok d, st1)
      else
        (.error (handleError (apiFail resp.status "Failed to retrieve account enquiry")), st1)
    | none =>
      (.error (handleError (apiFail resp.status "Failed to retrieve account enquiry")), st1)
  | (.error e, st1) => (.error (handleError e), st1)

/-- The normal form claimed by the spec for outgoing phone numbers: only
digits, after at most one leading plus sign. -/
def digitsAfterOptLeadingPlus (s : String) : Bool :=
  match s.data with
  | '+' :: rest => rest.all (fun c => c.isDigit)
  | l => l.all (fun c => c.isDigit)

/-- A store holding two historical sessions for the same phone number: an
older mid-flow one (id 0) and the currently active one (id 1). -/
def twoSessionStore : Store :=
  { sessions :=
      [ { id := 0, phoneNumber := "p", currentState := "CONFIRM_CHARGE",
          sessionData := [("meterType", SVal.s "Prepaid")], updatedAt := 0 },
        { id := 1, phoneNumber := "p", currentState := "MENU",
          sessionData := [], updatedAt := 5 } ],
    nextId := 2, clock := 6 }

/-- An empty session store. -/
def emptyStore : Store := { sessions := [], nextId := 0, clock := 0 }

/-- A schedule with no concurrent cancellation. -/
def noCancelSched : Nat → Bool := fun _ => false

/-- A pipeline environment whose backend calls both fail plainly. -/
def failEnv : PipelineEnv :=
  { meterInfo := .error (plainErr "boom"),
    enquiryRes := .error (plainErr "boom") }

/-- A login environment that succeeds and yields the given token. -/
def goodLoginEnv (t : String) : LoginEnv :=
  { baseUrlSet := true, credsSet := true,
    outcome :=
      .ok { status := 200,
            data := some { statusCode := some 200, message := none, token := some t } } }

/-- A request error carrying a 401 response. -/
def err401 : JSError :=
  { message := "Request failed with status code 401", code := none,
    responseStatus := some 401, etype := none, statusCode := none }

/-- Concrete authenticated-call environment: the first executed request gets
a 401, every later one succeeds with the value 7; logins yield tok2. -/
def retryEnv : AuthEnv Nat :=
  { loginEnvs := fun _ => goodLoginEnv "tok2",
    request := fun k _ => if k == 0 then .error err401 else .ok 7 }

/-- Concrete authenticated-call environment in which every request gets a
401 response. -/
def always401Env : AuthEnv Nat :=
  { loginEnvs := fun _ => goodLoginEnv "tok2",
    request := fun _ _ => .error err401 }

/-- Run state with a stale cached token and zeroed call counters. -/
def staleState : RunState :=
  { ecg := { authToken := some "stale" }, loginCount := 0, reqCount := 0 }

/-- A connection-refused transport error as axios reports it. -/
def connRefusedErr : JSError :=
  { message := "connect ECONNREFUSED", code := some "ECONNREFUSED",
    responseStatus := none, etype := none, statusCode := none }

/-- Concrete environment whose request fails with a connection-refused
transport error, for exercising the endpoint error paths. -/
def connRefusedEnv : AuthEnv (HttpResponse MeterInfoResponse) :=
  { loginEnvs := fun _ => goodLoginEnv "tok",
    request := fun _ _ => .error connRefusedErr }

/-- Same transport failure for the enquiry endpoint type. -/
def connRefusedEnvE : AuthEnv (HttpResponse EnquiryResponse) :=
  { loginEnvs := fun _ => goodLoginEnv "tok",
    request := fun _ _ => .error connRefusedErr }

/-- A login environment whose request is rejected with a 500 response. -/
def badLoginEnv : LoginEnv :=
  { baseUrlSet := true, credsSet := true,
    outcome := .error { message := "Request failed with status code 500", code := none, responseStatus := some 500, etype := none, statusCode := none } }

/-- A fresh session sitting at the menu. -/
def sessionMenu : Session :=
  { id := 0, phoneNumber := "233200000000", currentState := "MENU",
    sessionData := [], updatedAt := 0 }

/-- A store holding only sessionMenu. -/
def storeMenu : Store := { sessions := [sessionMenu], nextId := 1, clock := 1 }

/-- A world over storeMenu. -/
def worldMenu : World := { store := storeMenu, uuidCounter := 0 }

/-- A session mid field collection, cursor on the optional third field. -/
def sessionCollect : Session :=
  { id := 0, phoneNumber := "233200000000",
    currentState := "PREPAID_METER_INFO",
    sessionData :=
      [ ("meterType", SVal.s "Prepaid"), ("currentFieldIndex", SVal.n 2),
        ("phoneNumber", SVal.s "233244274699"), ("meterNumber", SVal.s "12345") ],
    updatedAt := 0 }

/-- A store holding only sessionCollect. -/
def storeCollect : Store := { sessions := [sessionCollect], nextId := 1, clock := 1 }

/-- A world over storeCollect. -/
def worldCollect : World := { store := storeCollect, uuidCounter := 0 }

/-- A session waiting in the enquiry-processing state. -/
def sessionEnquiry : Session :=
  { id := 0, phoneNumber := "233200000000", currentState := "PREPAID_ENQUIRY",
    sessionData := [], updatedAt := 0 }

/-- A store holding only sessionEnquiry. -/
def storeEnquiry : Store := { sessions := [sessionEnquiry], nextId := 1, clock := 1 }

/-- A world over storeEnquiry. -/
def worldEnquiry : World := { store := storeEnquiry, uuidCounter := 0 }

theorem dataGet_cons (k1 : String) (v1 : SVal) (t : SessionData) (k : String) :
    dataGet ((k1, v1) :: t) k = if k1 == k then some v1 else dataGet t k := by
  cases h : k1 == k <;> simp [dataGet, List.find?, h]

theorem dataGet_dataSet_self (d : SessionData) (k : String) (v : SVal) :
    dataGet (dataSet d k v) k = some v := by
  induction d with
  | nil => simp [dataSet, dataGet_cons]
  | cons p t ih =>
    obtain ⟨k1, v1⟩ := p
    by_cases h : k1 == k
    · simp [dataSet, h, dataGet_cons]
    · simp only [dataSet, h, if_neg]
      simp [dataGet_cons, h, ih]

theorem dataGet_dataSet_ne (d : SessionData) (k k2 : String) (v : SVal)
    (h : k2 ≠ k) : dataGet (dataSet d k v) k2 = dataGet d k2 := by
  induction d with
  | nil =>
    have hne : (k == k2) = false := beq_eq_false_iff_ne.mpr (fun hh => h hh.symm)
    show dataGet [(k, v)] k2 = dataGet [] k2
    rw [dataGet_cons, hne]
    simp
  | cons p t ih =>
    obtain ⟨k1, v1⟩ := p
    by_cases h1 : k1 = k
    · subst h1
      show dataGet (if (k1 == k1) = true then (k1, v) :: t else (k1, v1) :: dataSet t k1 v) k2
        = dataGet ((k1, v1) :: t) k2
      rw [if_pos (beq_self_eq_true k1)]
      have hne : (k1 == k2) = false := beq_eq_false_iff_ne.mpr (fun hh => h hh.symm)
      rw [dataGet_cons, dataGet_cons, hne]
      simp
    · have hne1 : (k1 == k) = false := beq_eq_false_iff_ne.mpr h1
      show dataGet (if (k1 == k) = true then (k, v) :: t else (k1, v1) :: dataSet t k v) k2
        = dataGet ((k1, v1) :: t) k2
      rw [hne1]
      simp only [Bool.false_eq_true, if_false]
      rw [dataGet_cons, dataGet_cons, ih]

theorem dataGet_eq_none_of_not_mem (d : SessionData) (k : String)
    (h : k ∉ d.map Prod.fst) : dataGet d k = none := by
  induction d with
  | nil => rfl
  | cons p t ih =>
    obtain ⟨k1, v1⟩ := p
    rw [List.map_cons] at h
    have h1 : k ≠ k1 := fun hh => h (by rw [hh]; exact List.mem_cons_self _ _)
    have h2 : k ∉ t.map Prod.fst := fun hh => h (List.mem_cons_of_mem _ hh)
    rw [dataGet_cons]
    have hne : (k1 == k) = false := beq_eq_false_iff_ne.mpr (fun hh => h1 hh.symm)
    rw [hne]
    simp only [Bool.false_eq_true, if_false]
    exact ih h2

theorem mem_keys_dataSet (d : SessionData) (k : String) (v : SVal) (k2 : String)
    (h : k2 ∈ (dataSet d k v).map Prod.fst) :
    k2 ∈ d.map Prod.fst ∨ k2 = k := by
  induction d with
  | nil =>
    simp [dataSet] at h
    exact Or.inr h
  | cons p t ih =>
    obtain ⟨k1, v1⟩ := p
    by_cases h1 : k1 = k
    · subst h1
      rw [show dataSet ((k1, v1) :: t) k1 v = (k1, v) :: t by
        show (if (k1 == k1) = true then (k1, v) :: t else _) = _
        rw [if_pos (beq_self_eq_true k1)]] at h
      rw [List.map_cons] at h
      rcases List.mem_cons.mp h with h2 | h2
      · exact Or.inr h2
      · exact Or.inl (by rw [List.map_cons]; exact List.mem_cons_of_mem _ h2)
    · have hne1 : (k1 == k) = false := beq_eq_false_iff_ne.mpr h1
      rw [show dataSet ((k1, v1) :: t) k v = (k1, v1) :: dataSet t k v by
        show (if (k1 == k) = true then (k, v) :: t else _) = _
        rw [hne1]; simp] at h
      rw [List.map_cons] at h
      rcases List.mem_cons.mp h with h2 | h2
      · exact Or.inl (by rw [List.map_cons]; exact h2 ▸ List.mem_cons_self _ _)
      · rcases ih h2 with h3 | h3
        · exact Or.inl (by rw [List.map_cons]; exact List.mem_cons_of_mem _ h3)
        · exact Or.inr h3

theorem NodupKeys_dataSet (d : SessionData) (k : String) (v : SVal)
    (h : NodupKeys d) : NodupKeys (dataSet d k v) := by
  induction d with
  | nil =>
    show ([(k, v)].map Prod.fst).Nodup
    simp
  | cons p t ih =>
    obtain ⟨k1, v1⟩ := p
    unfold NodupKeys at h
    rw [List.map_cons, List.nodup_cons] at h
    by_cases h1 : k1 = k
    · subst h1
      rw [show dataSet ((k1, v1) :: t) k1 v = (k1, v) :: t by
        show (if (k1 == k1) = true then (k1, v) :: t else _) = _
        rw [if_pos (beq_self_eq_true k1)]]
      unfold NodupKeys
      rw [List.map_cons, List.nodup_cons]
      exact h
    · have hne1 : (k1 == k) = false := beq_eq_false_iff_ne.mpr h1
      rw [show dataSet ((k1, v1) :: t) k v = (k1, v1) :: dataSet t k v by
        show (if (k1 == k) = true then (k, v) :: t else _) = _
        rw [hne1]; simp]
      unfold NodupKeys
      rw [List.map_cons, List.nodup_cons]
      refine ⟨fun hm => ?_, by have := ih h.2; unfold NodupKeys at this; exact this⟩
      rcases mem_keys_dataSet t k v k1 hm with h2 | h2
      · exact h.1 h2
      · exact h1 h2

theorem mergeData_cons (old : SessionData) (k1 : String) (v1 : SVal)
    (t : SessionData) :
    mergeData old ((k1, v1) :: t) = mergeData (dataSet old k1 v1) t := rfl

theorem dataGet_mergeData_of_none :
    ∀ (patch old : SessionData) (k : String), dataGet patch k = none →
    dataGet (mergeData old patch) k = dataGet old k := by
  intro patch
  induction patch with
  | nil => intro old k _; rfl
  | cons p t ih =>
    intro old k h
    obtain ⟨k1, v1⟩ := p
    rw [dataGet_cons] at h
    by_cases h1 : k1 = k
    · subst h1
      rw [if_pos (beq_self_eq_true k1)] at h
      exact absurd h (by simp)
    · have hne1 : (k1 == k) = false := beq_eq_false_iff_ne.mpr h1
      rw [hne1] at h
      simp only [Bool.false_eq_true, if_false] at h
      rw [mergeData_cons, ih (dataSet old k1 v1) k h,
        dataGet_dataSet_ne old k1 k v1 (fun hh => h1 hh.symm)]

theorem dataGet_mergeData_of_some :
    ∀ (patch old : SessionData) (k : String) (v : SVal), NodupKeys patch →
    dataGet patch k = some v →
    dataGet (mergeData old patch) k = some v := by
  intro patch
  induction patch with
  | nil => intro old k v _ h; exact absurd h (by simp [dataGet])
  | cons p t ih =>
    intro old k v hnd h
    obtain ⟨k1, v1⟩ := p
    unfold NodupKeys at hnd
    rw [List.map_cons, List.nodup_cons] at hnd
    rw [dataGet_cons] at h
    by_cases h1 : k1 = k
    · subst h1
      rw [if_pos (beq_self_eq_true k1)] at h
      have hv : v1 = v := by injection h
      subst hv
      rw [mergeData_cons]
      have hnone : dataGet t k1 = none :=
        dataGet_eq_none_of_not_mem t k1 hnd.1
      rw [dataGet_mergeData_of_none t (dataSet old k1 v1) k1 hnone]
      exact dataGet_dataSet_self old k1 v1
    · have hne1 : (k1 == k) = false := beq_eq_false_iff_ne.mpr h1
      rw [hne1] at h
      simp only [Bool.false_eq_true, if_false] at h
      rw [mergeData_cons]
      exact ih (dataSet old k1 v1) k v hnd.2 h

theorem find?_map_ite (l : List Session) (sid : Nat) (s s2 : Session)
    (h2 : s2.id = sid)
    (h : l.find? (fun t => t.id == sid) = some s) :
    (l.map (fun t => if t.id == sid then s2 else t)).find? (fun t => t.id == sid)
      = some s2 := by
  induction l with
  | nil => simp at h
  | cons a t ih =>
    by_cases ha : a.id = sid
    · have hab : (a.id == sid) = true := beq_iff_eq.mpr ha
      rw [List.map_cons, if_pos hab]
      rw [List.find?_cons]
      have : (s2.id == sid) = true := beq_iff_eq.mpr h2
      simp [this]
    · have hab : (a.id == sid) = false := beq_eq_false_iff_ne.mpr ha
      rw [List.find?_cons, hab] at h
      rw [List.map_cons, hab]
      simp only [Bool.false_eq_true, if_false]
      rw [List.find?_cons, hab]
      exact ih h

theorem updateSession_ok (store : Store) (sid : Nat) (stt : String)
    (patch : SessionData) (s2 : Session) (store2 : Store)
    (h : updateSession store sid stt patch = .ok (s2, store2)) :
    ∃ s, getSessionById store sid = some s ∧
      s2 = { s with currentState := stt, sessionData := mergeData s.sessionData patch, updatedAt := store.clock } ∧
      s2.id = s.id ∧ s.id = sid ∧
      getSessionById store2 sid = some s2 ∧
      store2.nextId = store.nextId := by
  unfold updateSession at h
  cases hg : getSessionById store sid with
  | none => rw [hg] at h; exact absurd h (by simp)
  | some s =>
    rw [hg] at h
    simp only [Except.ok.injEq, Prod.mk.injEq] at h
    obtain ⟨hs2, hst⟩ := h
    have hsid : s.id = sid := by
      have := List.find?_some hg
      exact beq_iff_eq.mp this
    refine ⟨s, rfl, hs2.symm, ?_, hsid, ?_, ?_⟩
    · rw [← hs2]
    · rw [← hst, hs2]
      show (store.sessions.map fun t => if t.id == sid then s2 else t).find?
        (fun t => t.id == sid) = some s2
      exact find?_map_ite store.sessions sid s s2 (by rw [← hs2]; exact hsid) hg
    · rw [← hst]

theorem resetSession_some (store : Store) (sid : Nat) (rs : Session)
    (store2 : Store)
    (h : resetSession store sid = (some rs, store2)) :
    ∃ s, getSessionById store sid = some s ∧
      rs = { s with currentState := "MENU", sessionData := [], updatedAt := store.clock } ∧
      rs.id = s.id ∧ s.id = sid ∧
      getSessionById store2 sid = some rs ∧
      store2.nextId = store.nextId := by
  unfold resetSession at h
  cases hg : getSessionById store sid with
  | none => rw [hg] at h; exact absurd h (by simp)
  | some s =>
    rw [hg] at h
    simp only [Prod.mk.injEq, Option.some.injEq] at h
    obtain ⟨hs2, hst⟩ := h
    have hsid : s.id = sid := by
      have := List.find?_some hg
      exact beq_iff_eq.mp this
    refine ⟨s, rfl, hs2.symm, ?_, hsid, ?_, ?_⟩
    · rw [← hs2]
    · rw [← hst, hs2]
      show (store.sessions.map fun t => if t.id == sid then rs else t).find?
        (fun t => t.id == sid) = some rs
      exact find?_map_ite store.sessions sid s rs (by rw [← hs2]; exact hsid) hg
    · rw [← hst]

theorem resetSession_none (store : Store) (sid : Nat)
    (h : getSessionById store sid = none) :
    resetSession store sid = (none, store) := by
  unfold resetSession
  rw [h]

theorem getSessionById_delete_self (store : Store) (sid : Nat) :
    getSessionById (deleteSession store sid) sid = none := by
  apply List.find?_eq_none.mpr
  intro s hs
  have := (List.mem_filter.mp hs).2
  simp at this
  simp [this]

theorem getSessionById_delete_of_none (store : Store) (sid sid2 : Nat)
    (h : getSessionById store sid = none) :
    getSessionById (deleteSession store sid2) sid = none := by
  apply List.find?_eq_none.mpr
  intro s hs
  exact List.find?_eq_none.mp h s (List.mem_filter.mp hs).1

theorem foldl_pickLater_mem :
    ∀ (l : List Session) (acc : Option Session) (s : Session),
    l.foldl pickLater acc = some s → acc = some s ∨ s ∈ l := by
  intro l
  induction l with
  | nil => intro acc s h; exact Or.inl h
  | cons a t ih =>
    intro acc s h
    rcases ih (pickLater acc a) s h with h2 | h2
    · cases acc with
      | none =>
        have ha : some a = some s := h2
        have : a = s := by injection ha
        exact Or.inr (this ▸ List.mem_cons_self _ _)
      | some b =>
        have hb : (if a.updatedAt > b.updatedAt then some a else some b) = some s := h2
        by_cases hgt : a.updatedAt > b.updatedAt
        · rw [if_pos hgt] at hb
          have : a = s := by injection hb
          exact Or.inr (this ▸ List.mem_cons_self _ _)
        · rw [if_neg hgt] at hb
          exact Or.inl hb
    · exact Or.inr (List.mem_cons_of_mem _ h2)

theorem latestFor_mem (store : Store) (phone : String) (s : Session)
    (h : latestFor store phone = some s) :
    s ∈ store.sessions ∧ s.phoneNumber = phone := by
  unfold latestFor at h
  rcases foldl_pickLater_mem (phoneSessions store phone) none s h with h2 | h2
  · exact absurd h2 (by simp)
  · have := List.mem_filter.mp h2
    exact ⟨this.1, by simpa using this.2⟩

theorem latestFor_of_nil (store : Store) (phone : String)
    (h : phoneSessions store phone = []) : latestFor store phone = none := by
  unfold latestFor
  rw [h]
  rfl

theorem latestFor_of_singleton (store : Store) (phone : String) (u : Session)
    (h : phoneSessions store phone = [u]) : latestFor store phone = some u := by
  unfold latestFor
  rw [h]
  rfl

theorem find?_id_of_mem :
    ∀ (l : List Session), (l.map Session.id).Nodup → ∀ s ∈ l,
    l.find? (fun t => t.id == s.id) = some s := by
  intro l
  induction l with
  | nil => intro _ s hs; simp at hs
  | cons a t ih =>
    intro hnd s hs
    rw [List.map_cons, List.nodup_cons] at hnd
    rcases List.mem_cons.mp hs with h | h
    · subst h
      rw [List.find?_cons, beq_self_eq_true]
    · have hne : a.id ≠ s.id := by
        intro hh
        exact hnd.1 (hh ▸ List.mem_map_of_mem Session.id h)
      rw [List.find?_cons, beq_eq_false_iff_ne.mpr hne]
      exact ih hnd.2 s h

theorem getSessionById_of_mem (store : Store) (s : Session)
    (hW : WF store) (hm : s ∈ store.sessions) :
    getSessionById store s.id = some s :=
  find?_id_of_mem store.sessions hW.2 s hm

theorem foldl_pickLater_isSome :
    ∀ (l : List Session) (b : Session),
    (l.foldl pickLater (some b)).isSome = true := by
  intro l
  induction l with
  | nil => intro b; rfl
  | cons a t ih =>
    intro b
    show (t.foldl pickLater (pickLater (some b) a)).isSome = true
    have : pickLater (some b) a = if a.updatedAt > b.updatedAt then some a else some b := rfl
    by_cases hgt : a.updatedAt > b.updatedAt
    · rw [this, if_pos hgt]; exact ih a
    · rw [this, if_neg hgt]; exact ih b

theorem latestFor_none_nil (store : Store) (phone : String)
    (h : latestFor store phone = none) : phoneSessions store phone = [] := by
  unfold latestFor at h
  cases hl : phoneSessions store phone with
  | nil => rfl
  | cons a t =>
    rw [hl] at h
    have : (t.foldl pickLater (pickLater none a)).isSome = true :=
      foldl_pickLater_isSome t a
    rw [show List.foldl pickLater none (a :: t) = t.foldl pickLater (pickLater none a) from rfl] at h
    rw [h] at this
    simp at this

theorem singleton_of_len_le_one {α : Type} (l : List α) (u : α)
    (hlen : l.length ≤ 1) (hm : u ∈ l) : l = [u] := by
  cases l with
  | nil => simp at hm
  | cons a t =>
    cases t with
    | nil =>
      have : u = a := by simpa using hm
      rw [this]
    | cons b r => simp at hlen

theorem filter_comm_list (l : List Session) (p q : Session → Bool) :
    (l.filter p).filter q = (l.filter q).filter p := by
  induction l with
  | nil => rfl
  | cons a t ih =>
    by_cases hp : p a = true <;> by_cases hq : q a = true <;>
      simp [List.filter_cons, hp, hq, ih]

theorem phoneSessions_delete (store : Store) (sid : Nat) (phone : String) :
    phoneSessions (deleteSession store sid) phone
      = (phoneSessions store phone).filter (fun s => s.id != sid) := by
  show (store.sessions.filter (fun s => s.id != sid)).filter (fun s => s.phoneNumber == phone)
    = (store.sessions.filter (fun s => s.phoneNumber == phone)).filter (fun s => s.id != sid)
  exact filter_comm_list store.sessions _ _

theorem filter_ne_of_bound (l : List Session) (n : Nat)
    (hb : ∀ s ∈ l, s.id < n) : l.filter (fun s => s.id != n) = l := by
  apply List.filter_eq_self.mpr
  intro s hs
  simp
  exact Nat.ne_of_lt (hb s hs)

theorem getSessionById_append_fresh (l : List Session) (x : Session) (n : Nat)
    (hb : ∀ s ∈ l, s.id < n) (hx : x.id = n) :
    (l ++ [x]).find? (fun t => t.id == n) = some x := by
  induction l with
  | nil =>
    rw [List.nil_append, List.find?_cons, beq_iff_eq.mpr hx]
  | cons a t ih =>
    rw [List.cons_append, List.find?_cons,
      beq_eq_false_iff_ne.mpr (Nat.ne_of_lt (hb a (List.mem_cons_self _ _)))]
    simp only [Bool.false_eq_true, if_false]
    exact ih (fun s hs => hb s (List.mem_cons_of_mem _ hs))

theorem getOrCreate_found (store : Store) (phone : String) (u : Session)
    (h : latestFor store phone = some u) :
    getOrCreateSession store phone = (u, store) := by
  unfold getOrCreateSession
  rw [h]

theorem getOrCreate_create (store : Store) (phone : String)
    (h : latestFor store phone = none) :
    getOrCreateSession store phone =
      ({ id := store.nextId, phoneNumber := phone, currentState := "MENU", sessionData := [], updatedAt := store.clock },
       { sessions := store.sessions ++ [{ id := store.nextId, phoneNumber := phone, currentState := "MENU", sessionData := [], updatedAt := store.clock }], nextId := store.nextId + 1, clock := store.clock + 1 }) := by
  unfold getOrCreateSession
  rw [h]

theorem getOrCreate_resolves (store : Store) (phone : String) (hW : WF store) :
    getSessionById (getOrCreateSession store phone).2
      (getOrCreateSession store phone).1.id
      = some (getOrCreateSession store phone).1 := by
  cases h : latestFor store phone with
  | some u =>
    rw [getOrCreate_found store phone u h]
    exact getSessionById_of_mem store u hW (latestFor_mem store phone u h).1
  | none =>
    rw [getOrCreate_create store phone h]
    exact getSessionById_append_fresh store.sessions _ store.nextId hW.1 rfl

/-- C1, counterexample: when the pipeline's initial reload of the session by
id finds no session, the pipeline does NOT terminate silently — it sends a
Session not found error notice to the user, so the claimed
"sends no further outbound notifications / no message to the user" is false
at this concrete input. -/
theorem C1_counterexample :
    getSessionById emptyStore 5 = none ∧
    (processEnquiryAsync failEnv noCancelSched "233200000000" 5 "PREPAID" emptyStore).2
      = [PAct.send "233200000000" (Msg.err "Session not found")] ∧
    (processEnquiryAsync failEnv noCancelSched "233200000000" 5 "PREPAID" emptyStore).2 ≠ [] := by
  refine ⟨rfl, rfl, ?_⟩
  decide

/-- C1 (amended): once the session is gone before the pipeline starts, the
pipeline performs no session writes (its store writes are all guarded by
existence re-checks), but it is not notification-silent: it sends exactly one
message, the Session not found error notice, and terminates. -/
theorem C1_cancelled_pipeline_no_writes (env : PipelineEnv)
    (sched : Nat → Bool) (phone : String) (sid : Nat) (ty : String)
    (store : Store) (h : getSessionById store sid = none) :
    processEnquiryAsync env sched phone sid ty store
      = ((delStep sched sid store 0).1,
         [PAct.send phone (Msg.err "Session not found")]) ∧
    (processEnquiryAsync env sched phone sid ty store).2.filter PAct.isWrite = [] := by
  have h2 : getSessionById (delStep sched sid store 0).1 sid = none := by
    unfold delStep
    by_cases hs : sched 0 = true
    · rw [if_pos hs]
      exact getSessionById_delete_of_none store sid sid h
    · rw [if_neg (by simpa using hs)]
      exact h
  have hmain : processEnquiryAsync env sched phone sid ty store
      = ((delStep sched sid store 0).1,
         [PAct.send phone (Msg.err "Session not found")]) := by
    simp only [processEnquiryAsync, h2]
  exact ⟨hmain, by rw [hmain]; rfl⟩

/-- C1 witness: the amended theorem applied at a concrete gone session. -/
theorem C1_cancelled_pipeline_no_writes_witness :
    processEnquiryAsync failEnv noCancelSched "233200000001" 9 "POSTPAID" emptyStore
      = ((delStep noCancelSched 9 emptyStore 0).1,
         [PAct.send "233200000001" (Msg.err "Session not found")]) ∧
    (processEnquiryAsync failEnv noCancelSched "233200000001" 9 "POSTPAID" emptyStore).2.filter PAct.isWrite = [] :=
  C1_cancelled_pipeline_no_writes failEnv noCancelSched "233200000001" 9 "POSTPAID"
    emptyStore rfl

/-- C9, counterexample: a plus sign that is not in leading position is NOT
stripped by the phone normalization — the body value for input 2+33 is 2+33
itself, which is not of the digits-after-optional-leading-plus form the claim
asserts. -/
theorem C9_counterexample :
    (meterInfoRequestBody { phoneNumber := some "2+33", meterNumber := none, accountNumber := none, meterType := none, machineSignature := none }).phoneNumber = "2+33" ∧
    digitsAfterOptLeadingPlus "2+33" = false := by
  exact ⟨rfl, rfl⟩

/-- C9 (amended): getMeterInfo normalizes the phone number by removing every
character that is neither a digit nor a plus sign; plus signs are kept
wherever they occur (not only in leading position). -/
theorem C9_phone_normalization (p : MeterInfoParams) (s : String)
    (h : p.phoneNumber = some s) :
    (meterInfoRequestBody p).phoneNumber
      = String.mk (s.data.filter (fun c => c.isDigit || c == '+')) ∧
    ((meterInfoRequestBody p).phoneNumber.data.all (fun c => c.isDigit || c == '+')) = true := by
  have hbody : (meterInfoRequestBody p).phoneNumber
      = if s != "" then formatPhoneNumber s else "" := by
    simp [meterInfoRequestBody, h]
  by_cases hs : s = ""
  · subst hs
    constructor
    · rw [hbody]; rfl
    · rw [hbody]; rfl
  · have hne : (s != "") = true := by simpa using hs
    have hfmt : formatPhoneNumber s
        = String.mk (s.data.filter (fun c => c.isDigit || c == '+')) := by
      unfold formatPhoneNumber
      rw [if_neg (by simpa using hs)]
    constructor
    · rw [hbody, hne, if_pos rfl, hfmt]
    · rw [hbody, hne, if_pos rfl, hfmt]
      apply List.all_eq_true.mpr
      intro c hc
      exact (List.mem_filter.mp hc).2

/-- C9 witness: the amended theorem applied at a concrete messy input. -/
theorem C9_phone_normalization_witness :
    (meterInfoRequestBody { phoneNumber := some " 23-3x+", meterNumber := none, accountNumber := none, meterType := none, machineSignature := none }).phoneNumber
      = String.mk ((" 23-3x+").data.filter (fun c => c.isDigit || c == '+')) ∧
    ((meterInfoRequestBody { phoneNumber := some " 23-3x+", meterNumber := none, accountNumber := none, meterType := none, machineSignature := none }).phoneNumber.data.all (fun c => c.isDigit || c == '+')) = true :=
  C9_phone_normalization _ " 23-3x+" rfl

/-- C6: the Backend API Client applies one uniform error classification to
both getMeterInfo and enquiry, in the classifier's source order: a transport
timeout (ECONNABORTED code or a timeout message) is tagged timeout; a
connection-refused, host-unreachable or DNS failure is tagged connection; any
other failure without an attached response is tagged connection; an HTTP
response with a non-success status is tagged api and carries the status code;
and both endpoints push every propagated request error through the same
classifier handleError. -/
theorem C6_uniform_error_classification :
    (∀ e : JSError,
      (e.code == some "ECONNABORTED" || strIncludes e.message "timeout") = true →
      (handleError e).etype = some "timeout") ∧
    (∀ e : JSError,
      (e.code == some "ECONNABORTED" || strIncludes e.message "timeout") = false →
      (e.code == some "ECONNREFUSED" || e.code == some "ENOTFOUND"
        || e.code == some "ETIMEDOUT") = true →
      (handleError e).etype = some "connection") ∧
    (∀ e : JSError,
      (e.code == some "ECONNABORTED" || strIncludes e.message "timeout") = false →
      (e.code == some "ECONNREFUSED" || e.code == some "ENOTFOUND"
        || e.code == some "ETIMEDOUT") = false →
      e.responseStatus = none →
      (handleError e).etype = some "connection") ∧
    (∀ (e : JSError) (sc : Nat),
      (e.code == some "ECONNABORTED" || strIncludes e.message "timeout") = false →
      (e.code == some "ECONNREFUSED" || e.code == some "ENOTFOUND"
        || e.code == some "ETIMEDOUT") = false →
      e.responseStatus = some sc →
      (handleError e).etype = some "api" ∧ (handleError e).statusCode = some sc) ∧
    (∀ (env : AuthEnv (HttpResponse MeterInfoResponse)) (st : RunState)
        (p : MeterInfoParams) (e : JSError) (st1 : RunState),
      makeAuthenticatedRequest env st = (.error e, st1) →
      (getMeterInfo env st p).1.1 = .error (handleError e)) ∧
    (∀ (env : AuthEnv (HttpResponse EnquiryResponse)) (st : RunState)
        (p : EnquiryParams) (sig : Except JSError String) (e : JSError)
        (st1 : RunState),
      makeAuthenticatedRequest env st = (.error e, st1) →
      (enquiry env st p sig).1 = .error (handleError e)) := by
  refine ⟨?_, ?_, ?_, ?_, ?_, ?_⟩
  · intro e h1
    unfold handleError
    rw [if_pos h1]
  · intro e h1 h2
    unfold handleError
    rw [if_neg (by simp [h1]), if_pos h2]
  · intro e h1 h2 h3
    unfold handleError
    rw [if_neg (by simp [h1]), if_neg (by simp [h2]), if_pos (by simp [h3])]
  · intro e sc h1 h2 h3
    unfold handleError
    rw [if_neg (by simp [h1]), if_neg (by simp [h2]),
      if_neg (by simp [h3]), if_pos (by simp [h3])]
    exact ⟨rfl, by simp [h3]⟩
  · intro env st p e st1 h
    simp only [getMeterInfo, h]
  · intro env st p sig e st1 h
    simp only [enquiry, h]

/-- C6 witness: each classification rule and the shared classifier exercised
at concrete errors and a concrete failing environment. -/
theorem C6_uniform_error_classification_witness :
    (handleError { message := "timeout of 30000ms exceeded", code := some "ECONNABORTED", responseStatus := none, etype := none, statusCode := none }).etype = some "timeout" ∧
    (handleError connRefusedErr).etype = some "connection" ∧
    (handleError (plainErr "socket hang up")).etype = some "connection" ∧
    ((handleError { message := "Request failed with status code 500", code := none, responseStatus := some 500, etype := none, statusCode := none }).etype = some "api" ∧
     (handleError { message := "Request failed with status code 500", code := none, responseStatus := some 500, etype := none, statusCode := none }).statusCode = some 500) ∧
    (getMeterInfo connRefusedEnv staleState { phoneNumber := some "233244274699", meterNumber := some "12345", accountNumber := none, meterType := some "Prepaid", machineSignature := none }).1.1
      = .error (handleError connRefusedErr) ∧
    (enquiry connRefusedEnvE staleState { asyncRequestId := some "id1", referenceId := some "r", meterSerial := some "m", mobileNumber := some "233244274699", meterType := some "Prepaid", machineSignature := none } (.error (plainErr "sig down"))).1
      = .error (handleError connRefusedErr) :=
  ⟨C6_uniform_error_classification.1 _ rfl,
   C6_uniform_error_classification.2.1 _ rfl rfl,
   C6_uniform_error_classification.2.2.1 _ rfl rfl rfl,
   C6_uniform_error_classification.2.2.2.1 _ 500 rfl rfl rfl,
   C6_uniform_error_classification.2.2.2.2.1 connRefusedEnv staleState _ connRefusedErr
     { ecg := { authToken := some "stale" }, loginCount := 0, reqCount := 1 } rfl,
   C6_uniform_error_classification.2.2.2.2.2 connRefusedEnvE staleState _ _ connRefusedErr
     { ecg := { authToken := some "stale" }, loginCount := 0, reqCount := 1 } rfl⟩

/-- C3: with a cached token, a first-attempt 401 clears the token, performs
exactly one fresh login and retries the call exactly once — a run whose first
request is unauthorized and whose retry succeeds ends with exactly one
re-login and two executed requests; and when the retry is also rejected (401
or any other error), that error propagates with exactly two executed requests
and still only one re-login, i.e. no third attempt. -/
theorem C3_auth_retry_once :
    (∀ (α : Type) (env : AuthEnv α) (st : RunState) (t0 t1 : String)
        (e : JSError) (v : α),
      st.ecg.authToken = some t0 →
      env.request st.reqCount t0 = .error e →
      e.responseStatus = some 401 →
      login (env.loginEnvs st.loginCount) { authToken := none }
        = (.ok t1, { authToken := some t1 }) →
      env.request (st.reqCount + 1) t1 = .ok v →
      makeAuthenticatedRequest env st
        = (.ok v, { ecg := { authToken := some t1 }, loginCount := st.loginCount + 1, reqCount := st.reqCount + 2 })) ∧
    (∀ (α : Type) (env : AuthEnv α) (st : RunState) (t0 t1 : String)
        (e e2 : JSError),
      st.ecg.authToken = some t0 →
      env.request st.reqCount t0 = .error e →
      e.responseStatus = some 401 →
      login (env.loginEnvs st.loginCount) { authToken := none }
        = (.ok t1, { authToken := some t1 }) →
      env.request (st.reqCount + 1) t1 = .error e2 →
      makeAuthenticatedRequest env st
        = (.error e2, { ecg := { authToken := some t1 }, loginCount := st.loginCount + 1, reqCount := st.reqCount + 2 })) := by
  constructor
  · intro α env st t0 t1 e v htok hreq1 h401 hlogin hreq2
    simp only [makeAuthenticatedRequest, ensureAuth, doRequest, doLogin, htok,
      hreq1, h401, hlogin, hreq2, beq_self_eq_true, if_pos]
  · intro α env st t0 t1 e e2 htok hreq1 h401 hlogin hreq2
    simp only [makeAuthenticatedRequest, ensureAuth, doRequest, doLogin, htok,
      hreq1, h401, hlogin, hreq2, beq_self_eq_true, if_pos]

/-- C3 witness: the retry theorem applied to a concrete run whose first
request gets a 401 and whose retry succeeds, and to a concrete run in which
every request gets a 401. -/
theorem C3_auth_retry_once_witness :
    makeAuthenticatedRequest retryEnv staleState
      = (.ok 7, { ecg := { authToken := some "tok2" }, loginCount := 1, reqCount := 2 }) ∧
    makeAuthenticatedRequest always401Env staleState
      = (.error err401, { ecg := { authToken := some "tok2" }, loginCount := 1, reqCount := 2 }) :=
  ⟨C3_auth_retry_once.1 Nat retryEnv staleState "stale" "tok2" err401 7
     rfl rfl rfl rfl rfl,
   C3_auth_retry_once.2 Nat always401Env staleState "stale" "tok2" err401 err401
     rfl rfl rfl rfl rfl⟩

/-- C10: with the backend URL and credentials configured, login() is atomic
with respect to the cached bearer token: a successful login caches exactly
the returned token (isAuthenticated becomes true), and every error path —
non-200 status, missing token in the payload, or a thrown request error —
leaves the cached token cleared to null, so isAuthenticated is false after
any failed login. -/
theorem C10_login_token_atomicity (env : LoginEnv) (st : ECGState)
    (hb : env.baseUrlSet = true) (hc : env.credsSet = true) :
    (∀ t, (login env st).1 = .ok t →
      (login env st).2.authToken = some t ∧
      isAuthenticated (login env st).2 = true) ∧
    (∀ e, (login env st).1 = .error e →
      (login env st).2.authToken = none ∧
      isAuthenticated (login env st).2 = false) := by
  have hlog : login env st
      = match env.outcome with
        | .ok resp =>
          match resp.data with
          | some d =>
            if resp.status == 200 then
              if d.statusCode == some 200 && optTruthy d.token then
                (.ok (d.token.getD ""), { authToken := d.token })
              else
                (.error (plainErr (d.message.getD "Login failed - no token received")), { authToken := none })
            else
              (.error (plainErr "Login failed - unexpected response"), { authToken := none })
          | none =>
            (.error (plainErr "Login failed - unexpected response"), { authToken := none })
        | .error e =>
          match e.responseStatus with
          | some s =>
            (.error { message := "Login failed: " ++ toString s, code := none, responseStatus := none, etype := some "auth", statusCode := some s }, { authToken := none })
          | none => (.error e, { authToken := none }) := by
    unfold login
    rw [hb, hc]
    rfl
  rw [hlog]
  cases env.outcome with
  | error e0 =>
    obtain ⟨msg0, code0, rs0, et0, sc0⟩ := e0
    cases rs0 with
    | some s =>
      refine ⟨fun t ht => by simp at ht, fun e he => ⟨rfl, rfl⟩⟩
    | none =>
      refine ⟨fun t ht => by simp at ht, fun e he => ⟨rfl, rfl⟩⟩
  | ok resp =>
    obtain ⟨status0, data0⟩ := resp
    cases data0 with
    | none =>
      refine ⟨fun t ht => by simp at ht, fun e he => ⟨rfl, rfl⟩⟩
    | some d =>
      dsimp only
      by_cases hst : (status0 == 200) = true
      · rw [if_pos hst]
        by_cases hok : (d.statusCode == some 200 && optTruthy d.token) = true
        · rw [if_pos hok]
          refine ⟨fun t ht => ?_, fun e he => by simp at he⟩
          have htruthy : optTruthy d.token = true := (Bool.and_elim_right hok)
          cases hdt : d.token with
          | none => rw [hdt] at htruthy; simp [optTruthy] at htruthy
          | some u =>
            rw [hdt] at ht
            simp at ht
            refine ⟨by rw [← ht], rfl⟩
        · rw [if_neg hok]
          refine ⟨fun t ht => by simp at ht, fun e he => ⟨rfl, rfl⟩⟩
      · rw [if_neg hst]
        refine ⟨fun t ht => by simp at ht, fun e he => ⟨rfl, rfl⟩⟩

/-- C10 witness: a successful login caches the returned token and a rejected
login leaves the cache cleared, at concrete environments. -/
theorem C10_login_token_atomicity_witness :
    ((login (goodLoginEnv "tok7") { authToken := some "old" }).2.authToken = some "tok7" ∧
     isAuthenticated (login (goodLoginEnv "tok7") { authToken := some "old" }).2 = true) ∧
    ((login badLoginEnv { authToken := some "old" }).2.authToken = none ∧
     isAuthenticated (login badLoginEnv { authToken := some "old" }).2 = false) :=
  ⟨(C10_login_token_atomicity (goodLoginEnv "tok7") { authToken := some "old" } rfl rfl).1
     "tok7" rfl,
   (C10_login_token_atomicity badLoginEnv { authToken := some "old" } rfl rfl).2
     { message := "Login failed: 500", code := none, responseStatus := none, etype := some "auth", statusCode := some 500 } rfl⟩

/-- C7: for a session in an ENQUIRY state receiving a message that is not a
global cancel or menu command, the handler performs no session write (world
unchanged, nothing launched); it reloads the session by id and returns the
stored enquiry result exactly when the background pipeline has advanced the
session to CONFIRM_CHARGE with a (truthy) stored enquiryResponse, and a
still-processing notice otherwise. -/
theorem C7_enquiry_handler_frame (w : World) (session : Session)
    (message : String)
    (hc : cancelKeywords.contains (jsUpper (jsTrim message)) = false)
    (hm : (jsUpper (jsTrim message) == "MENU" || jsUpper (jsTrim message) == "RESET") = false)
    (hst : session.currentState = STATES_PREPAID_ENQUIRY
      ∨ session.currentState = STATES_POSTPAID_ENQUIRY) :
    ∃ o, handleEnquiryProcessing w session message = .ok o ∧
      o.world = w ∧ o.launched = none ∧
      (getSessionById w.store session.id = none →
        o.reply = Msg.processing "Your request is still being processed") ∧
      (∀ cur, getSessionById w.store session.id = some cur →
        cur.currentState ≠ STATES_CONFIRM_CHARGE →
        o.reply = Msg.processing "Your request is still being processed") ∧
      (∀ cur v, getSessionById w.store session.id = some cur →
        cur.currentState = STATES_CONFIRM_CHARGE →
        dataGet cur.sessionData "enquiryResponse" = some v →
        v.truthy = true →
        o.reply = Msg.enquiryMsg v) ∧
      ((∃ cur v, getSessionById w.store session.id = some cur ∧
          cur.currentState = STATES_CONFIRM_CHARGE ∧
          dataGet cur.sessionData "enquiryResponse" = some v ∧
          v.truthy = true ∧ o.reply = Msg.enquiryMsg v)
        ∨ o.reply = Msg.processing "Your request is still being processed") := by
  cases hg : getSessionById w.store session.id with
  | none =>
    refine ⟨{ reply := Msg.processing "Your request is still being processed", world := w, launched := none },
      ?_, rfl, rfl, fun _ => rfl, ?_, ?_, Or.inr rfl⟩
    · simp only [handleEnquiryProcessing, hc, Bool.false_eq_true, if_false, hg]
    · intro cur hcur
      exact absurd hcur (by simp)
    · intro cur v hcur
      exact absurd hcur (by simp)
  | some cur =>
    by_cases hcs : (cur.currentState == STATES_CONFIRM_CHARGE) = true
    · cases hget : dataGet cur.sessionData "enquiryResponse" with
      | none =>
        refine ⟨{ reply := Msg.processing "Your request is still being processed", world := w, launched := none },
          ?_, rfl, rfl, ?_, ?_, ?_, Or.inr rfl⟩
        · simp only [handleEnquiryProcessing, hc, Bool.false_eq_true, if_false,
            hg, hcs, if_pos, hget]
        · intro hn; exact absurd hn (by simp)
        · intro _ _ _; rfl
        · intro cur2 v hcur2 hcs2 hget2
          have hcc : cur2 = cur := by injection hcur2 with hh; exact hh.symm
          subst hcc
          rw [hget] at hget2
          exact absurd hget2 (by simp)
      | some v =>
        by_cases htr : v.truthy = true
        · refine ⟨{ reply := Msg.enquiryMsg v, world := w, launched := none },
            ?_, rfl, rfl, ?_, ?_, ?_, ?_⟩
          · simp only [handleEnquiryProcessing, hc, Bool.false_eq_true, if_false,
              hg, hcs, if_pos, hget, htr, if_true]
          · intro hn; exact absurd hn (by simp)
          · intro cur2 hcur2 hne
            have hcc : cur2 = cur := by injection hcur2 with hh; exact hh.symm
            subst hcc
            exact absurd (beq_iff_eq.mp hcs) hne
          · intro cur2 v2 hcur2 hcs2 hget2 htr2
            have hcc : cur2 = cur := by injection hcur2 with hh; exact hh.symm
            subst hcc
            rw [hget] at hget2
            have hvv : v = v2 := by injection hget2
            rw [← hvv]
          · exact Or.inl ⟨cur, v, rfl, beq_iff_eq.mp hcs, hget, htr, rfl⟩
        · refine ⟨{ reply := Msg.processing "Your request is still being processed", world := w, launched := none },
            ?_, rfl, rfl, ?_, ?_, ?_, Or.inr rfl⟩
          · simp only [handleEnquiryProcessing, hc, Bool.false_eq_true, if_false,
              hg, hcs, if_pos, hget, htr]
          · intro hn; exact absurd hn (by simp)
          · intro _ _ _; rfl
          · intro cur2 v2 hcur2 hcs2 hget2 htr2
            have hcc : cur2 = cur := by injection hcur2 with hh; exact hh.symm
            subst hcc
            rw [hget] at hget2
            have hvv : v = v2 := by injection hget2
            rw [← hvv] at htr2
            exact absurd htr2 htr
    · refine ⟨{ reply := Msg.processing "Your request is still being processed", world := w, launched := none },
        ?_, rfl, rfl, ?_, ?_, ?_, Or.inr rfl⟩
      · simp only [handleEnquiryProcessing, hc, Bool.false_eq_true, if_false,
          hg, hcs]
      · intro hn; exact absurd hn (by simp)
      · intro _ _ _; rfl
      · intro cur2 v2 hcur2 hcs2 hget2 htr2
        have hcc : cur2 = cur := by injection hcur2 with hh; exact hh.symm
        subst hcc
        exact absurd (beq_iff_eq.mpr hcs2) (by simpa using hcs)

/-- C7 witness: the frame theorem applied to a concrete enquiry-state world
in which the pipeline has not yet advanced the session. -/
theorem C7_enquiry_handler_frame_witness :
    ∃ o, handleEnquiryProcessing worldEnquiry sessionEnquiry "hello" = .ok o ∧
      o.world = worldEnquiry ∧ o.launched = none ∧
      (getSessionById worldEnquiry.store sessionEnquiry.id = none →
        o.reply = Msg.processing "Your request is still being processed") ∧
      (∀ cur, getSessionById worldEnquiry.store sessionEnquiry.id = some cur →
        cur.currentState ≠ STATES_CONFIRM_CHARGE →
        o.reply = Msg.processing "Your request is still being processed") ∧
      (∀ cur v, getSessionById worldEnquiry.store sessionEnquiry.id = some cur →
        cur.currentState = STATES_CONFIRM_CHARGE →
        dataGet cur.sessionData "enquiryResponse" = some v →
        v.truthy = true →
        o.reply = Msg.enquiryMsg v) ∧
      ((∃ cur v, getSessionById worldEnquiry.store sessionEnquiry.id = some cur ∧
          cur.currentState = STATES_CONFIRM_CHARGE ∧
          dataGet cur.sessionData "enquiryResponse" = some v ∧
          v.truthy = true ∧ o.reply = Msg.enquiryMsg v)
        ∨ o.reply = Msg.processing "Your request is still being processed") :=
  C7_enquiry_handler_frame worldEnquiry sessionEnquiry "hello" (by decide) (by decide)
    (Or.inl rfl)

/-- C8: from the MENU state, input 1 (after trimming) moves the session to
PREPAID_METER_INFO with meterType Prepaid and currentFieldIndex 0, and input
2 moves it to POSTPAID_METER_INFO with meterType Postpaid and
currentFieldIndex 0; both replies prompt for the first field (Phone Number,
not optional). -/
theorem C8_menu_transitions (w : World) (session : Session) (message : String)
    (hmem : getSessionById w.store session.id = some session)
    (hmenu : session.currentState = STATES_MENU) :
    ((jsTrim message = "1") →
      ∃ o s2, handleMenu w session message = .ok o ∧
        o.reply = Msg.meterInfoPrompt "Phone Number" false ∧
        o.launched = none ∧
        getSessionById o.world.store session.id = some s2 ∧
        s2.currentState = STATES_PREPAID_METER_INFO ∧
        dataGet s2.sessionData "meterType" = some (SVal.s "Prepaid") ∧
        dataGet s2.sessionData "currentFieldIndex" = some (SVal.n 0)) ∧
    ((jsTrim message = "2") →
      ∃ o s2, handleMenu w session message = .ok o ∧
        o.reply = Msg.meterInfoPrompt "Phone Number" false ∧
        o.launched = none ∧
        getSessionById o.world.store session.id = some s2 ∧
        s2.currentState = STATES_POSTPAID_METER_INFO ∧
        dataGet s2.sessionData "meterType" = some (SVal.s "Postpaid") ∧
        dataGet s2.sessionData "currentFieldIndex" = some (SVal.n 0)) := by
  constructor
  · intro h1
    have hupd : updateSession w.store session.id STATES_PREPAID_METER_INFO
        [("meterType", SVal.s "Prepaid"), ("currentFieldIndex", SVal.n 0)]
        = .ok ({ session with currentState := STATES_PREPAID_METER_INFO, sessionData := mergeData session.sessionData [("meterType", SVal.s "Prepaid"), ("currentFieldIndex", SVal.n 0)], updatedAt := w.store.clock },
               { w.store with sessions := w.store.sessions.map (fun t => if t.id == session.id then { session with currentState := STATES_PREPAID_METER_INFO, sessionData := mergeData session.sessionData [("meterType", SVal.s "Prepaid"), ("currentFieldIndex", SVal.n 0)], updatedAt := w.store.clock } else t), clock := w.store.clock + 1 }) := by
      unfold updateSession
      rw [hmem]
    obtain ⟨s0, hs0, hs2, hid, hsid, hres, hnext⟩ :=
      updateSession_ok _ _ _ _ _ _ hupd
    refine ⟨{ reply := Msg.meterInfoPrompt "Phone Number" false, world := { w with store := { w.store with sessions := w.store.sessions.map (fun t => if t.id == session.id then { session with currentState := STATES_PREPAID_METER_INFO, sessionData := mergeData session.sessionData [("meterType", SVal.s "Prepaid"), ("currentFieldIndex", SVal.n 0)], updatedAt := w.store.clock } else t), clock := w.store.clock + 1 } }, launched := none },
      { session with currentState := STATES_PREPAID_METER_INFO, sessionData := mergeData session.sessionData [("meterType", SVal.s "Prepaid"), ("currentFieldIndex", SVal.n 0)], updatedAt := w.store.clock },
      ?_, rfl, rfl, ?_, rfl, ?_, ?_⟩
    · simp only [handleMenu, h1, beq_self_eq_true, if_pos, hupd]
    · exact hres
    · exact dataGet_mergeData_of_some _ _ _ _ (by decide) (by decide)
    · exact dataGet_mergeData_of_some _ _ _ _ (by decide) (by decide)
  · intro h1
    have hupd : updateSession w.store session.id STATES_POSTPAID_METER_INFO
        [("meterType", SVal.s "Postpaid"), ("currentFieldIndex", SVal.n 0)]
        = .ok ({ session with currentState := STATES_POSTPAID_METER_INFO, sessionData := mergeData session.sessionData [("meterType", SVal.s "Postpaid"), ("currentFieldIndex", SVal.n 0)], updatedAt := w.store.clock },
               { w.store with sessions := w.store.sessions.map (fun t => if t.id == session.id then { session with currentState := STATES_POSTPAID_METER_INFO, sessionData := mergeData session.sessionData [("meterType", SVal.s "Postpaid"), ("currentFieldIndex", SVal.n 0)], updatedAt := w.store.clock } else t), clock := w.store.clock + 1 }) := by
      unfold updateSession
      rw [hmem]
    obtain ⟨s0, hs0, hs2, hid, hsid, hres, hnext⟩ :=
      updateSession_ok _ _ _ _ _ _ hupd
    refine ⟨{ reply := Msg.meterInfoPrompt "Phone Number" false, world := { w with store := { w.store with sessions := w.store.sessions.map (fun t => if t.id == session.id then { session with currentState := STATES_POSTPAID_METER_INFO, sessionData := mergeData session.sessionData [("meterType", SVal.s "Postpaid"), ("currentFieldIndex", SVal.n 0)], updatedAt := w.store.clock } else t), clock := w.store.clock + 1 } }, launched := none },
      { session with currentState := STATES_POSTPAID_METER_INFO, sessionData := mergeData session.sessionData [("meterType", SVal.s "Postpaid"), ("currentFieldIndex", SVal.n 0)], updatedAt := w.store.clock },
      ?_, rfl, rfl, ?_, rfl, ?_, ?_⟩
    · simp only [handleMenu, h1, beq_self_eq_true, if_pos, hupd]
      rfl
    · exact hres
    · exact dataGet_mergeData_of_some _ _ _ _ (by decide) (by decide)
    · exact dataGet_mergeData_of_some _ _ _ _ (by decide) (by decide)

/-- C8 witness: the menu theorem applied to a concrete MENU-state world. -/
theorem C8_menu_transitions_witness :
    ((jsTrim " 1 " = "1") →
      ∃ o s2, handleMenu worldMenu sessionMenu " 1 " = .ok o ∧
        o.reply = Msg.meterInfoPrompt "Phone Number" false ∧
        o.launched = none ∧
        getSessionById o.world.store sessionMenu.id = some s2 ∧
        s2.currentState = STATES_PREPAID_METER_INFO ∧
        dataGet s2.sessionData "meterType" = some (SVal.s "Prepaid") ∧
        dataGet s2.sessionData "currentFieldIndex" = some (SVal.n 0)) ∧
    ((jsTrim " 1 " = "2") →
      ∃ o s2, handleMenu worldMenu sessionMenu " 1 " = .ok o ∧
        o.reply = Msg.meterInfoPrompt "Phone Number" false ∧
        o.launched = none ∧
        getSessionById o.world.store sessionMenu.id = some s2 ∧
        s2.currentState = STATES_POSTPAID_METER_INFO ∧
        dataGet s2.sessionData "meterType" = some (SVal.s "Postpaid") ∧
        dataGet s2.sessionData "currentFieldIndex" = some (SVal.n 0)) :=
  C8_menu_transitions worldMenu sessionMenu " 1 " rfl rfl

/-- C2: for a session collecting meter info whose cursor sits on the last
(optional) field, a SKIP input completes the collection: the two required
field values stay stored, the skipped accountNumber stays absent, a fresh
correlation id (the next uuid) is stored under asyncRequestId, the session is
persisted in the matching ENQUIRY state, the asynchronous pipeline launch is
recorded (fire-and-forget, not awaited), and the immediate reply is the
processing acknowledgment. -/
theorem C2_collection_completion (w : World) (session : Session)
    (message ty : String) (pv mv : String)
    (hty : ty = "PREPAID" ∧ session.currentState = STATES_PREPAID_METER_INFO
      ∨ ty = "POSTPAID" ∧ session.currentState = STATES_POSTPAID_METER_INFO)
    (hskip : jsUpper (jsTrim message) = "SKIP")
    (hidx : dataGet session.sessionData "currentFieldIndex" = some (SVal.n 2))
    (hpv : dataGet session.sessionData "phoneNumber" = some (SVal.s pv))
    (hmv : dataGet session.sessionData "meterNumber" = some (SVal.s mv))
    (hacc : dataGet session.sessionData "accountNumber" = none)
    (hnd : NodupKeys session.sessionData)
    (hmem : getSessionById w.store session.id = some session) :
    ∃ o s2, handleMeterInfoCollection w session message ty = .ok o ∧
      o.reply = Msg.processing "Processing your request" ∧
      o.launched = some { phoneNumber := session.phoneNumber, sessionId := session.id, ty := ty } ∧
      o.world.uuidCounter = w.uuidCounter + 1 ∧
      getSessionById o.world.store session.id = some s2 ∧
      s2.currentState
        = (if ty == "PREPAID" then STATES_PREPAID_ENQUIRY else STATES_POSTPAID_ENQUIRY) ∧
      dataGet s2.sessionData "phoneNumber" = some (SVal.s pv) ∧
      dataGet s2.sessionData "meterNumber" = some (SVal.s mv) ∧
      dataGet s2.sessionData "accountNumber" = none ∧
      dataGet s2.sessionData "asyncRequestId" = some (SVal.uuid w.uuidCounter) ∧
      dataGet s2.sessionData "currentFieldIndex" = some (SVal.n 3) := by
  have hnd2 : NodupKeys (dataSet session.sessionData "currentFieldIndex" (SVal.n 3)) :=
    NodupKeys_dataSet _ _ _ hnd
  have hnd3 : NodupKeys (dataSet (dataSet session.sessionData "currentFieldIndex" (SVal.n 3)) "asyncRequestId" (SVal.uuid w.uuidCounter)) :=
    NodupKeys_dataSet _ _ _ hnd2
  have hupd : updateSession w.store session.id
      (if ty == "PREPAID" then STATES_PREPAID_ENQUIRY else STATES_POSTPAID_ENQUIRY)
      (dataSet (dataSet session.sessionData "currentFieldIndex" (SVal.n 3)) "asyncRequestId" (SVal.uuid w.uuidCounter))
      = .ok ({ session with currentState := (if ty == "PREPAID" then STATES_PREPAID_ENQUIRY else STATES_POSTPAID_ENQUIRY), sessionData := mergeData session.sessionData (dataSet (dataSet session.sessionData "currentFieldIndex" (SVal.n 3)) "asyncRequestId" (SVal.uuid w.uuidCounter)), updatedAt := w.store.clock },
             { w.store with sessions := w.store.sessions.map (fun t => if t.id == session.id then { session with currentState := (if ty == "PREPAID" then STATES_PREPAID_ENQUIRY else STATES_POSTPAID_ENQUIRY), sessionData := mergeData session.sessionData (dataSet (dataSet session.sessionData "currentFieldIndex" (SVal.n 3)) "asyncRequestId" (SVal.uuid w.uuidCounter)), updatedAt := w.store.clock } else t), clock := w.store.clock + 1 }) := by
    unfold updateSession
    rw [hmem]
  obtain ⟨s0, hs0, hs2, hid, hsid, hres, hnext⟩ :=
    updateSession_ok _ _ _ _ _ _ hupd
  have hdata3get : ∀ k, k ≠ "asyncRequestId" → k ≠ "currentFieldIndex" →
      dataGet (dataSet (dataSet session.sessionData "currentFieldIndex" (SVal.n 3)) "asyncRequestId" (SVal.uuid w.uuidCounter)) k
        = dataGet session.sessionData k := by
    intro k h1 h2
    rw [dataGet_dataSet_ne _ _ _ _ h1, dataGet_dataSet_ne _ _ _ _ h2]
  refine ⟨{ reply := Msg.processing "Processing your request", world := { store := { w.store with sessions := w.store.sessions.map (fun t => if t.id == session.id then { session with currentState := (if ty == "PREPAID" then STATES_PREPAID_ENQUIRY else STATES_POSTPAID_ENQUIRY), sessionData := mergeData session.sessionData (dataSet (dataSet session.sessionData "currentFieldIndex" (SVal.n 3)) "asyncRequestId" (SVal.uuid w.uuidCounter)), updatedAt := w.store.clock } else t), clock := w.store.clock + 1 }, uuidCounter := w.uuidCounter + 1 }, launched := some { phoneNumber := session.phoneNumber, sessionId := session.id, ty := ty } },
    { session with currentState := (if ty == "PREPAID" then STATES_PREPAID_ENQUIRY else STATES_POSTPAID_ENQUIRY), sessionData := mergeData session.sessionData (dataSet (dataSet session.sessionData "currentFieldIndex" (SVal.n 3)) "asyncRequestId" (SVal.uuid w.uuidCounter)), updatedAt := w.store.clock },
    ?_, rfl, rfl, rfl, ?_, rfl, ?_, ?_, ?_, ?_, ?_⟩
  · simp only [handleMeterInfoCollection, hskip, hidx,
      show cancelKeywords.contains "SKIP" = false from rfl,
      Bool.false_eq_true, if_false,
      show fieldAt 2 = some { key := "accountNumber", label := "Account Number", required := false } from rfl]
    simp only [show (("SKIP" == "SKIP") && !(false : Bool)) = true from rfl, if_true,
      show METER_INFO_FIELDS.length = 3 from rfl]
    rw [if_pos (by omega)]
    simp only [hupd]
  · exact hres
  · exact dataGet_mergeData_of_some _ _ _ _ hnd3
      (by rw [hdata3get "phoneNumber" (by decide) (by decide)]; exact hpv)
  · exact dataGet_mergeData_of_some _ _ _ _ hnd3
      (by rw [hdata3get "meterNumber" (by decide) (by decide)]; exact hmv)
  · rw [dataGet_mergeData_of_none _ _ _
      (by rw [hdata3get "accountNumber" (by decide) (by decide)]; exact hacc)]
    exact hacc
  · exact dataGet_mergeData_of_some _ _ _ _ hnd3 (dataGet_dataSet_self _ _ _)
  · exact dataGet_mergeData_of_some _ _ _ _ hnd3
      (by rw [dataGet_dataSet_ne _ _ _ _ (by decide)]
          exact dataGet_dataSet_self _ _ _)

/-- C2 witness: the completion theorem applied to a concrete session whose
first two fields are already collected. -/
theorem C2_collection_completion_witness :
    ∃ o s2, handleMeterInfoCollection worldCollect sessionCollect "skip" "PREPAID" = .ok o ∧
      o.reply = Msg.processing "Processing your request" ∧
      o.launched = some { phoneNumber := sessionCollect.phoneNumber, sessionId := sessionCollect.id, ty := "PREPAID" } ∧
      o.world.uuidCounter = worldCollect.uuidCounter + 1 ∧
      getSessionById o.world.store sessionCollect.id = some s2 ∧
      s2.currentState
        = (if "PREPAID" == "PREPAID" then STATES_PREPAID_ENQUIRY else STATES_POSTPAID_ENQUIRY) ∧
      dataGet s2.sessionData "phoneNumber" = some (SVal.s "233244274699") ∧
      dataGet s2.sessionData "meterNumber" = some (SVal.s "12345") ∧
      dataGet s2.sessionData "accountNumber" = none ∧
      dataGet s2.sessionData "asyncRequestId" = some (SVal.uuid worldCollect.uuidCounter) ∧
      dataGet s2.sessionData "currentFieldIndex" = some (SVal.n 3) :=
  C2_collection_completion worldCollect sessionCollect "skip" "PREPAID"
    "233244274699" "12345" (Or.inl ⟨rfl, rfl⟩) (by decide) (by decide) (by decide)
    (by decide) (by decide) (by decide) (by decide)

theorem processMessage_cancel_eq (w : World) (phone message : String)
    (hc : cancelKeywords.contains (jsUpper (jsTrim message)) = true) :
    processMessage w phone message false
      = cancelPath { w with store := (getOrCreateSession w.store phone).2 }
          (getOrCreateSession w.store phone).1.id phone := by
  simp only [processMessage, hc, if_true, Bool.false_eq_true, if_false]

/-- C4, counterexample: with two historical sessions stored for the same
phone number (the spec's own data model allows this), a CANCEL deletes the
active session but getOrCreateSession then revives the older mid-flow
session instead of creating a brand-new one: the reply embeds the old
session id 0, the surviving session is still in CONFIRM_CHARGE with
non-empty data, and no fresh MENU session exists. -/
theorem C4_counterexample :
    (processMessage { store := twoSessionStore, uuidCounter := 0 } "p" "CANCEL" false).reply
      = Msg.cancellationWithMenu (some 0) ∧
    (processMessage { store := twoSessionStore, uuidCounter := 0 } "p" "CANCEL" false).world.store.sessions
      = [{ id := 0, phoneNumber := "p", currentState := "CONFIRM_CHARGE", sessionData := [("meterType", SVal.s "Prepaid")], updatedAt := 0 }] ∧
    getSessionById twoSessionStore 0
      = some { id := 0, phoneNumber := "p", currentState := "CONFIRM_CHARGE", sessionData := [("meterType", SVal.s "Prepaid")], updatedAt := 0 } := by
  exact ⟨rfl, rfl, rfl⟩

/-- C4 (amended): provided the cancelled session is the only stored session
for its phone number, a cancel keyword deletes it and creates a brand-new
session — fresh identifier, state MENU, empty data — for the same phone
number, the reply is the cancellation notice embedding the new session id,
and the old session id no longer resolves.  (With older historical sessions
for the phone still stored, the code revives the most recently updated of
them instead of creating a new one.) -/
theorem C4_cancel_fresh_session (w : World) (phone message : String)
    (hW : WF w.store)
    (hone : (phoneSessions w.store phone).length ≤ 1)
    (hc : cancelKeywords.contains (jsUpper (jsTrim message)) = true) :
    ∃ ns : Session,
      (processMessage w phone message false).reply
        = Msg.cancellationWithMenu (some ns.id) ∧
      (processMessage w phone message false).launched = none ∧
      getSessionById (processMessage w phone message false).world.store ns.id
        = some ns ∧
      ns.phoneNumber = phone ∧ ns.currentState = STATES_MENU ∧
      ns.sessionData = [] ∧
      ns.id ≠ (getOrCreateSession w.store phone).1.id ∧
      getSessionById (processMessage w phone message false).world.store
        (getOrCreateSession w.store phone).1.id = none := by
  cases hps : phoneSessions w.store phone with
  | cons u t =>
    have ht : t = [] := by
      rw [hps] at hone
      cases t with
      | nil => rfl
      | cons b r => simp at hone
    subst ht
    have hlf : latestFor w.store phone = some u :=
      latestFor_of_singleton _ _ _ hps
    have hgoc : getOrCreateSession w.store phone = (u, w.store) :=
      getOrCreate_found _ _ _ hlf
    have humem : u ∈ w.store.sessions := by
      have : u ∈ phoneSessions w.store phone := by
        rw [hps]; exact List.mem_cons_self _ _
      exact (List.mem_filter.mp this).1
    have hps2 : phoneSessions (deleteSession w.store u.id) phone = [] := by
      rw [phoneSessions_delete, hps]
      simp [List.filter]
    have hlf2 : latestFor (deleteSession w.store u.id) phone = none :=
      latestFor_of_nil _ _ hps2
    have hgoc2 := getOrCreate_create (deleteSession w.store u.id) phone hlf2
    have hpm : processMessage w phone message false
        = cancelPath { w with store := w.store } u.id phone := by
      rw [processMessage_cancel_eq w phone message hc, hgoc]
    have hcp : cancelPath { w with store := w.store } u.id phone
        = { reply := Msg.cancellationWithMenu (some (deleteSession w.store u.id).nextId),
            world := { w with store := { sessions := (deleteSession w.store u.id).sessions ++ [{ id := (deleteSession w.store u.id).nextId, phoneNumber := phone, currentState := "MENU", sessionData := [], updatedAt := (deleteSession w.store u.id).clock }], nextId := (deleteSession w.store u.id).nextId + 1, clock := (deleteSession w.store u.id).clock + 1 } },
            launched := none } := by
      simp only [cancelPath, hgoc2]
    have hbound : ∀ s ∈ (deleteSession w.store u.id).sessions,
        s.id < (deleteSession w.store u.id).nextId := by
      intro s hs
      exact hW.1 s (List.mem_filter.mp hs).1
    refine ⟨{ id := (deleteSession w.store u.id).nextId, phoneNumber := phone, currentState := "MENU", sessionData := [], updatedAt := (deleteSession w.store u.id).clock },
      ?_, ?_, ?_, rfl, rfl, rfl, ?_, ?_⟩
    · rw [hpm, hcp]
    · rw [hpm, hcp]
    · rw [hpm, hcp]
      exact getSessionById_append_fresh _ _ _ hbound rfl
    · rw [hgoc]
      show (deleteSession w.store u.id).nextId ≠ u.id
      have hlt : u.id < w.store.nextId := hW.1 u humem
      intro hh
      rw [show (deleteSession w.store u.id).nextId = w.store.nextId from rfl] at hh
      omega
    · rw [hpm, hcp, hgoc]
      apply List.find?_eq_none.mpr
      intro s hs
      rcases List.mem_append.mp hs with hs1 | hs2
      · have := (List.mem_filter.mp hs1).2
        simpa using this
      · have : s = { id := (deleteSession w.store u.id).nextId, phoneNumber := phone, currentState := "MENU", sessionData := [], updatedAt := (deleteSession w.store u.id).clock } := by
          simpa using hs2
        subst this
        show ¬ ((deleteSession w.store u.id).nextId == u.id) = true
        simp
        exact fun hh => absurd (hh ▸ hW.1 u humem) (lt_irrefl _)
  | nil =>
    have hlf : latestFor w.store phone = none := latestFor_of_nil _ _ hps
    have hgoc := getOrCreate_create w.store phone hlf
    have hnew : (getOrCreateSession w.store phone).1
        = { id := w.store.nextId, phoneNumber := phone, currentState := "MENU", sessionData := [], updatedAt := w.store.clock } := by
      rw [hgoc]
    have hst0 : (getOrCreateSession w.store phone).2
        = { sessions := w.store.sessions ++ [{ id := w.store.nextId, phoneNumber := phone, currentState := "MENU", sessionData := [], updatedAt := w.store.clock }], nextId := w.store.nextId + 1, clock := w.store.clock + 1 } := by
      rw [hgoc]
    have hdel : (deleteSession (getOrCreateSession w.store phone).2 (getOrCreateSession w.store phone).1.id).sessions
        = w.store.sessions := by
      rw [hnew, hst0]
      show (w.store.sessions ++ [_]).filter _ = w.store.sessions
      rw [List.filter_append, filter_ne_of_bound w.store.sessions w.store.nextId hW.1]
      simp [List.filter]
    have hps2 : phoneSessions (deleteSession (getOrCreateSession w.store phone).2 (getOrCreateSession w.store phone).1.id) phone = [] := by
      unfold phoneSessions
      rw [hdel]
      exact hps
    have hlf2 : latestFor (deleteSession (getOrCreateSession w.store phone).2 (getOrCreateSession w.store phone).1.id) phone = none :=
      latestFor_of_nil _ _ hps2
    have hgoc2 := getOrCreate_create _ phone hlf2
    have hpm : processMessage w phone message false
        = cancelPath { w with store := (getOrCreateSession w.store phone).2 }
            (getOrCreateSession w.store phone).1.id phone :=
      processMessage_cancel_eq w phone message hc
    have hnid : (deleteSession (getOrCreateSession w.store phone).2 (getOrCreateSession w.store phone).1.id).nextId
        = w.store.nextId + 1 := by
      rw [hst0]
      rfl
    have hcp : cancelPath { w with store := (getOrCreateSession w.store phone).2 }
          (getOrCreateSession w.store phone).1.id phone
        = { reply := Msg.cancellationWithMenu (some (deleteSession (getOrCreateSession w.store phone).2 (getOrCreateSession w.store phone).1.id).nextId),
            world := { w with store := { sessions := (deleteSession (getOrCreateSession w.store phone).2 (getOrCreateSession w.store phone).1.id).sessions ++ [{ id := (deleteSession (getOrCreateSession w.store phone).2 (getOrCreateSession w.store phone).1.id).nextId, phoneNumber := phone, currentState := "MENU", sessionData := [], updatedAt := (deleteSession (getOrCreateSession w.store phone).2 (getOrCreateSession w.store phone).1.id).clock }], nextId := (deleteSession (getOrCreateSession w.store phone).2 (getOrCreateSession w.store phone).1.id).nextId + 1, clock := (deleteSession (getOrCreateSession w.store phone).2 (getOrCreateSession w.store phone).1.id).clock + 1 } },
            launched := none } := by
      simp only [cancelPath, hgoc2]
    refine ⟨{ id := (deleteSession (getOrCreateSession w.store phone).2 (getOrCreateSession w.store phone).1.id).nextId, phoneNumber := phone, currentState := "MENU", sessionData := [], updatedAt := (deleteSession (getOrCreateSession w.store phone).2 (getOrCreateSession w.store phone).1.id).clock },
      ?_, ?_, ?_, rfl, rfl, rfl, ?_, ?_⟩
    · rw [hpm, hcp]
    · rw [hpm, hcp]
    · rw [hpm, hcp]
      apply getSessionById_append_fresh _ _ _ ?_ rfl
      intro s hs
      rw [hdel] at hs
      rw [hnid]
      exact Nat.lt_succ_of_lt (hW.1 s hs)
    · show (deleteSession (getOrCreateSession w.store phone).2 (getOrCreateSession w.store phone).1.id).nextId
        ≠ (getOrCreateSession w.store phone).1.id
      rw [hnid, hnew]
      simp
    · rw [hpm, hcp]
      apply List.find?_eq_none.mpr
      intro s hs
      have hid : (getOrCreateSession w.store phone).1.id = w.store.nextId := by
        rw [hnew]
      rcases List.mem_append.mp hs with hs1 | hs2
      · rw [hdel] at hs1
        have hlt := hW.1 s hs1
        rw [hid]
        simp
        omega
      · have hs3 : s = { id := (deleteSession (getOrCreateSession w.store phone).2 (getOrCreateSession w.store phone).1.id).nextId, phoneNumber := phone, currentState := "MENU", sessionData := [], updatedAt := (deleteSession (getOrCreateSession w.store phone).2 (getOrCreateSession w.store phone).1.id).clock } := by
          simpa using hs2
        subst hs3
        show ¬ ((deleteSession (getOrCreateSession w.store phone).2 (getOrCreateSession w.store phone).1.id).nextId == (getOrCreateSession w.store phone).1.id) = true
        rw [hnid, hid]
        simp

/-- C4 witness: the amended cancel theorem applied to a store holding a
single session for the phone number. -/
theorem C4_cancel_fresh_session_witness :
    ∃ ns : Session,
      (processMessage worldEnquiry "233200000000" "CANCEL" false).reply
        = Msg.cancellationWithMenu (some ns.id) ∧
      (processMessage worldEnquiry "233200000000" "CANCEL" false).launched = none ∧
      getSessionById (processMessage worldEnquiry "233200000000" "CANCEL" false).world.store ns.id
        = some ns ∧
      ns.phoneNumber = "233200000000" ∧ ns.currentState = STATES_MENU ∧
      ns.sessionData = [] ∧
      ns.id ≠ (getOrCreateSession worldEnquiry.store "233200000000").1.id ∧
      getSessionById (processMessage worldEnquiry "233200000000" "CANCEL" false).world.store
        (getOrCreateSession worldEnquiry.store "233200000000").1.id = none :=
  C4_cancel_fresh_session worldEnquiry "233200000000" "CANCEL"
    ⟨by decide, by decide⟩ (by decide) (by decide)

/-- C5, counterexample: the claim's clause "if the session no longer exists,
a new session is transparently created" is false when older historical
sessions for the phone remain stored: with two sessions for phone p and a
concurrent deletion of the active one between the load and the reset, a MENU
message creates nothing — the store comes back unchanged (same rows, same id
generator), the reply embeds the surviving pre-existing session id 0, and
that session is still mid-flow in CONFIRM_CHARGE with non-empty data instead
of a new (or reset) MENU session. -/
theorem C5_counterexample :
    (processMessage { store := twoSessionStore, uuidCounter := 0 } "p" "MENU" true).reply
      = Msg.menu (some 0) ∧
    (processMessage { store := twoSessionStore, uuidCounter := 0 } "p" "MENU" true).world.store
      = { sessions := [{ id := 0, phoneNumber := "p", currentState := "CONFIRM_CHARGE", sessionData := [("meterType", SVal.s "Prepaid")], updatedAt := 0 }], nextId := 2, clock := 6 } ∧
    getSessionById twoSessionStore 0
      = some { id := 0, phoneNumber := "p", currentState := "CONFIRM_CHARGE", sessionData := [("meterType", SVal.s "Prepaid")], updatedAt := 0 } := by
  exact ⟨rfl, rfl, rfl⟩

/-- C5 (amended): a MENU or RESET message resets the phone's session in
place — same identifier, state MENU, empty data — and replies with the menu
embedding that identifier; if a concurrent deletion removed the session
between the load and the reset (modelled by the raceDelete scheduling point)
and it was the only stored session for that phone number, a new session is
transparently created instead of failing (with older historical sessions
still stored, getOrCreateSession revives the most recently updated of them
instead); and resetSession is idempotent: resetting twice in a row yields
the observable state (MENU, empty data) both times, with a stable
identifier. -/
theorem C5_menu_reset (w : World) (phone message : String)
    (hW : WF w.store)
    (hone : (phoneSessions w.store phone).length ≤ 1)
    (hm : jsUpper (jsTrim message) = "MENU" ∨ jsUpper (jsTrim message) = "RESET") :
    ((processMessage w phone message false).reply
        = Msg.menu (some (getOrCreateSession w.store phone).1.id) ∧
      (processMessage w phone message false).launched = none ∧
      ∃ rs, getSessionById (processMessage w phone message false).world.store
          (getOrCreateSession w.store phone).1.id = some rs ∧
        rs.id = (getOrCreateSession w.store phone).1.id ∧
        rs.currentState = STATES_MENU ∧ rs.sessionData = []) ∧
    (∃ ns : Session,
      (processMessage w phone message true).reply = Msg.menu (some ns.id) ∧
      (processMessage w phone message true).launched = none ∧
      getSessionById (processMessage w phone message true).world.store ns.id
        = some ns ∧
      ns.phoneNumber = phone ∧ ns.currentState = STATES_MENU ∧
      ns.sessionData = []) ∧
    (∀ (store : Store) (sid : Nat) (rs : Session) (st2 : Store),
      resetSession store sid = (some rs, st2) →
      rs.currentState = STATES_MENU ∧ rs.sessionData = [] ∧
      ∃ rs2 st3, resetSession st2 sid = (some rs2, st3) ∧
        rs2.currentState = STATES_MENU ∧ rs2.sessionData = [] ∧
        rs2.id = rs.id) := by
  have hnc : cancelKeywords.contains (jsUpper (jsTrim message)) = false := by
    rcases hm with h | h <;> rw [h] <;> decide
  have hcond : (jsUpper (jsTrim message) == "MENU"
      || jsUpper (jsTrim message) == "RESET") = true := by
    rcases hm with h | h <;> rw [h] <;> decide
  refine ⟨?_, ?_, ?_⟩
  · have hres0 := getOrCreate_resolves w.store phone hW
    have hrs : resetSession (getOrCreateSession w.store phone).2
        (getOrCreateSession w.store phone).1.id
        = (some { (getOrCreateSession w.store phone).1 with currentState := "MENU", sessionData := [], updatedAt := (getOrCreateSession w.store phone).2.clock },
           { (getOrCreateSession w.store phone).2 with sessions := (getOrCreateSession w.store phone).2.sessions.map (fun t => if t.id == (getOrCreateSession w.store phone).1.id then { (getOrCreateSession w.store phone).1 with currentState := "MENU", sessionData := [], updatedAt := (getOrCreateSession w.store phone).2.clock } else t), clock := (getOrCreateSession w.store phone).2.clock + 1 }) := by
      unfold resetSession
      rw [hres0]
    have hpm : processMessage w phone message false
        = { reply := Msg.menu (some (getOrCreateSession w.store phone).1.id),
            world := { w with store := { (getOrCreateSession w.store phone).2 with sessions := (getOrCreateSession w.store phone).2.sessions.map (fun t => if t.id == (getOrCreateSession w.store phone).1.id then { (getOrCreateSession w.store phone).1 with currentState := "MENU", sessionData := [], updatedAt := (getOrCreateSession w.store phone).2.clock } else t), clock := (getOrCreateSession w.store phone).2.clock + 1 } },
            launched := none } := by
      simp only [processMessage, hnc, Bool.false_eq_true, if_false, hcond,
        if_true, hrs]
    obtain ⟨s0, hs0, hrseq, hid, hsid, hresolved, hnext⟩ :=
      resetSession_some _ _ _ _ hrs
    refine ⟨by rw [hpm], by rw [hpm], ?_⟩
    refine ⟨{ (getOrCreateSession w.store phone).1 with currentState := "MENU", sessionData := [], updatedAt := (getOrCreateSession w.store phone).2.clock }, ?_, rfl, rfl, rfl⟩
    rw [hpm]
    exact hresolved
  · have hdelself := getSessionById_delete_self
      (getOrCreateSession w.store phone).2 (getOrCreateSession w.store phone).1.id
    have hrsnone : resetSession
        (deleteSession (getOrCreateSession w.store phone).2 (getOrCreateSession w.store phone).1.id)
        (getOrCreateSession w.store phone).1.id
        = (none, deleteSession (getOrCreateSession w.store phone).2 (getOrCreateSession w.store phone).1.id) :=
      resetSession_none _ _ hdelself
    have hpsdel : phoneSessions
        (deleteSession (getOrCreateSession w.store phone).2 (getOrCreateSession w.store phone).1.id)
        phone = [] := by
      cases hps : phoneSessions w.store phone with
      | cons u t =>
        have ht : t = [] := by
          rw [hps] at hone
          cases t with
          | nil => rfl
          | cons b r => simp at hone
        subst ht
        have hgoc : getOrCreateSession w.store phone = (u, w.store) :=
          getOrCreate_found _ _ _ (latestFor_of_singleton _ _ _ hps)
        rw [hgoc]
        rw [phoneSessions_delete, hps]
        simp [List.filter]
      | nil =>
        have hgoc := getOrCreate_create w.store phone (latestFor_of_nil _ _ hps)
        rw [hgoc]
        show (((w.store.sessions ++ [_]).filter _).filter _) = []
        rw [List.filter_append, filter_ne_of_bound w.store.sessions w.store.nextId hW.1]
        have hself : ([{ id := w.store.nextId, phoneNumber := phone, currentState := "MENU", sessionData := [], updatedAt := w.store.clock }].filter (fun s => s.id != w.store.nextId) : List Session) = [] := by
          simp [List.filter]
        rw [hself, List.append_nil]
        exact hps
    have hlf2 : latestFor
        (deleteSession (getOrCreateSession w.store phone).2 (getOrCreateSession w.store phone).1.id)
        phone = none := latestFor_of_nil _ _ hpsdel
    have hgoc2 := getOrCreate_create _ phone hlf2
    have hpm : processMessage w phone message true
        = { reply := Msg.menu (some (getOrCreateSession
              (deleteSession (getOrCreateSession w.store phone).2 (getOrCreateSession w.store phone).1.id) phone).1.id),
            world := { w with store := (getOrCreateSession
              (deleteSession (getOrCreateSession w.store phone).2 (getOrCreateSession w.store phone).1.id) phone).2 },
            launched := none } := by
      simp only [processMessage, hnc, Bool.false_eq_true, if_false, hcond,
        if_true, hrsnone]
    have hbound : ∀ s ∈ (deleteSession (getOrCreateSession w.store phone).2 (getOrCreateSession w.store phone).1.id).sessions,
        s.id < (deleteSession (getOrCreateSession w.store phone).2 (getOrCreateSession w.store phone).1.id).nextId := by
      intro s hs
      have hs2 := (List.mem_filter.mp hs).1
      cases hps : latestFor w.store phone with
      | some u =>
        have hgoc : getOrCreateSession w.store phone = (u, w.store) :=
          getOrCreate_found _ _ _ hps
        rw [hgoc] at hs2 ⊢
        exact hW.1 s hs2
      | none =>
        have hgoc := getOrCreate_create w.store phone hps
        rw [hgoc] at hs2 ⊢
        rcases List.mem_append.mp hs2 with hs3 | hs3
        · exact Nat.lt_succ_of_lt (hW.1 s hs3)
        · have : s = { id := w.store.nextId, phoneNumber := phone, currentState := "MENU", sessionData := [], updatedAt := w.store.clock } := by
            simpa using hs3
          subst this
          exact Nat.lt_succ_self _
    refine ⟨{ id := (deleteSession (getOrCreateSession w.store phone).2 (getOrCreateSession w.store phone).1.id).nextId, phoneNumber := phone, currentState := "MENU", sessionData := [], updatedAt := (deleteSession (getOrCreateSession w.store phone).2 (getOrCreateSession w.store phone).1.id).clock },
      ?_, ?_, ?_, rfl, rfl, rfl⟩
    · rw [hpm, hgoc2]
    · rw [hpm]
    · rw [hpm, hgoc2]
      exact getSessionById_append_fresh _ _ _ hbound rfl
  · intro store sid rs st2 h
    obtain ⟨s0, hs0, hrseq, hid, hsid, hresolved, hnext⟩ :=
      resetSession_some _ _ _ _ h
    have hrs2 : resetSession st2 sid
        = (some { rs with currentState := "MENU", sessionData := [], updatedAt := st2.clock },
           { st2 with sessions := st2.sessions.map (fun t => if t.id == sid then { rs with currentState := "MENU", sessionData := [], updatedAt := st2.clock } else t), clock := st2.clock + 1 }) := by
      unfold resetSession
      rw [hresolved]
    refine ⟨by rw [hrseq]; rfl, by rw [hrseq], ?_⟩
    exact ⟨_, _, hrs2, rfl, rfl, rfl⟩

/-- C5 witness: the reset theorem applied to a concrete single-session
store. -/
theorem C5_menu_reset_witness :
    ((processMessage worldCollect "233200000000" "menu" false).reply
        = Msg.menu (some (getOrCreateSession worldCollect.store "233200000000").1.id) ∧
      (processMessage worldCollect "233200000000" "menu" false).launched = none ∧
      ∃ rs, getSessionById (processMessage worldCollect "233200000000" "menu" false).world.store
          (getOrCreateSession worldCollect.store "233200000000").1.id = some rs ∧
        rs.id = (getOrCreateSession worldCollect.store "233200000000").1.id ∧
        rs.currentState = STATES_MENU ∧ rs.sessionData = []) ∧
    (∃ ns : Session,
      (processMessage worldCollect "233200000000" "menu" true).reply = Msg.menu (some ns.id) ∧
      (processMessage worldCollect "233200000000" "menu" true).launched = none ∧
      getSessionById (processMessage worldCollect "233200000000" "menu" true).world.store ns.id
        = some ns ∧
      ns.phoneNumber = "233200000000" ∧ ns.currentState = STATES_MENU ∧
      ns.sessionData = []) ∧
    (∀ (store : Store) (sid : Nat) (rs : Session) (st2 : Store),
      resetSession store sid = (some rs, st2) →
      rs.currentState = STATES_MENU ∧ rs.sessionData = [] ∧
      ∃ rs2 st3, resetSession st2 sid = (some rs2, st3) ∧
        rs2.currentState = STATES_MENU ∧ rs2.sessionData = [] ∧
        rs2.id = rs.id) :=
  C5_menu_reset worldCollect "233200000000" "menu"
    ⟨by decide, by decide⟩ (by decide) (Or.inl (by decide))

end WhatAppBot
